import Mathlib

/-!
# Clinic booking site: slot reservation core

Shallow embedding of the booking logic of `src/pages/index.js`
(`BookingPage`: `availableDates`, `timeSlots`, the booked-slots listener,
`isSlotBooked`, `handleBooking`; `DiscoveryCallPage`: `handleSubmit`) and of the
API route `src/pages/api/send-email.js` (`handler`), together with the parts of
the JavaScript `Date` API, of the Firestore client API (`setDoc`, `addDoc`, the
`where` query) and of the mail client that they call.

Instants are JavaScript time values: integer milliseconds since
1970-01-01T00:00:00Z.  React state is a record; one call of an event handler
maps the state at the time of the call to the state after it, the store after
it, and the ordered list of outward effects it attempted.
-/

namespace Clinic

/-! ## JavaScript `Date` -/

/-- Milliseconds in a day. -/
def msPerDay : Int := 86400000

/-- Milliseconds in a minute. -/
def msPerMinute : Int := 60000

/-- Day number of a time value: `floor (t / msPerDay)`. -/
def dayOf (t : Int) : Int := t / msPerDay

/-- Proleptic Gregorian calendar date `(year, month, day)` of a day number
(days since 1970-01-01), month in `1..12`, day in `1..31`. -/
def civilFromDays (days : Int) : Int × Nat × Nat :=
  let z := days + 719468
  let era := z / 146097
  let doe := z - era * 146097
  let yoe := (doe - doe / 1460 + doe / 36524 - doe / 146096) / 365
  let y := yoe + era * 400
  let doy := doe - (365 * yoe + yoe / 4 - yoe / 100)
  let mp := (5 * doy + 2) / 153
  let d := doy - (153 * mp + 2) / 5 + 1
  let m := if mp < 10 then mp + 3 else mp - 9
  (if m ≤ 2 then y + 1 else y, m.toNat, d.toNat)

/-- Decimal digit character of `n % 10`. -/
def digitChar (n : Nat) : Char := Char.ofNat (48 + n % 10)

/-- The last `width` decimal digits of `n`, zero padded. -/
def padDigits : Nat → Nat → List Char
  | 0, _ => []
  | w + 1, n => padDigits w (n / 10) ++ [digitChar n]

/-- Year field of `toISOString`: four digits for years `0..9999`, otherwise a
sign and six digits. -/
def isoYear (y : Int) : String :=
  if 0 ≤ y ∧ y ≤ 9999 then String.mk (padDigits 4 y.toNat)
  else if y < 0 then "-" ++ String.mk (padDigits 6 (-y).toNat)
  else "+" ++ String.mk (padDigits 6 y.toNat)

/-- Model of `date.toISOString().split('T')[0]`: the UTC calendar date of the
instant, written `YYYY-MM-DD`. -/
def isoDate (t : Int) : String :=
  let c := civilFromDays (dayOf t)
  isoYear c.1 ++ "-" ++ String.mk (padDigits 2 c.2.1) ++ "-" ++ String.mk (padDigits 2 c.2.2)

/-- English month names, as used by the `en-IN` locale for `month: 'long'`. -/
def monthNames : List String :=
  ["January", "February", "March", "April", "May", "June", "July", "August",
   "September", "October", "November", "December"]

/-- Offset of the `Asia/Kolkata` zone from UTC, in minutes. -/
def kolkataOffsetMin : Int := 330

/-- Model of `date.toLocaleDateString('en-IN', { day: 'numeric', month: 'long',
year: 'numeric', timeZone: 'Asia/Kolkata' })`, e.g. `1 June 2025`, for instants
in year 1 or later (the page only holds `new Date()` and the fourteen days
after it). -/
def formatDateIN (t : Int) : String :=
  let c := civilFromDays (dayOf (t + kolkataOffsetMin * msPerMinute))
  String.mk (Nat.toDigits 10 c.2.2) ++ " " ++ monthNames.getD (c.2.1 - 1) "" ++ " " ++
    String.mk (Nat.toDigits 10 c.1.toNat)

/-- Model of `new Date(`${dateStr}T${selectedTime}:00`)` where `dateStr` is the
ISO date of day number `day` and the time of day is `minuteOfDay`: a date-time
string without zone designator is read as local time, so the instant is local
midnight of that calendar date plus the time of day.  `tzOffsetMin` is the
offset of the local zone from UTC in minutes (330 for IST). -/
def localDateTime (tzOffsetMin : Int) (day : Int) (minuteOfDay : Int) : Int :=
  day * msPerDay + minuteOfDay * msPerMinute - tzOffsetMin * msPerMinute

/-! ## Firestore client -/

/-- A collection: documents keyed by document id, at most one per id. -/
abbrev Collection (α : Type) := List (String × α)

/-- The document stored under `id`, if any. -/
def Collection.getDoc {α : Type} (c : Collection α) (id : String) : Option α :=
  (c.find? (fun kv => kv.1 == id)).map Prod.snd

/-- Model of `setDoc(doc(db, path, id), data)` called without a merge option, as
`handleBooking` calls it: the document is created if it does not exist and
replaced if it does.  This is the effect of a write that the backend commits;
whether it commits is decided outside the program (`World.writeCommits`). -/
def setDoc {α : Type} (c : Collection α) (id : String) (data : α) : Collection α :=
  (id, data) :: c.filter (fun kv => kv.1 != id)

/-! ## Booking page -/

/-- The application id `appId` when `__app_id` is not injected. -/
def appId : String := "default-app-id"

/-- Collection path `publicAppointmentsPath`. -/
def publicAppointmentsPath : String := "artifacts/" ++ appId ++ "/public/data/appointments"

/-- The array `timeSlots` of the booking page. -/
def timeSlots : List String := ["18:00", "19:00", "20:00", "21:00"]

/-- Values of the `selectedTime` state other than `null`: it is only ever set
by the slot buttons, to one of the four entries of `timeSlots`. -/
inductive TimeSlot where
  | t1800 | t1900 | t2000 | t2100
  deriving DecidableEq, Repr

/-- The string held in `selectedTime`. -/
def TimeSlot.label : TimeSlot → String
  | .t1800 => "18:00"
  | .t1900 => "19:00"
  | .t2000 => "20:00"
  | .t2100 => "21:00"

/-- Minute of the day that the `Date` parser reads from `label ++ ":00"`. -/
def TimeSlot.minuteOfDay : TimeSlot → Int
  | .t1800 => 18 * 60
  | .t1900 => 19 * 60
  | .t2000 => 20 * 60
  | .t2100 => 21 * 60

/-- The appointment document `apptData`. -/
structure ApptData where
  slotId : String
  date : String
  time : String
  patientName : String
  patientEmail : String
  bookedBy : String
  bookedAt : Int
  bookingTimestamp : Int
  deriving DecidableEq, Repr

/-- JSON body of the request to `/api/send-email`. -/
structure EmailRequest where
  type : String
  name : String
  email : String
  date : String
  time : String
  deriving DecidableEq, Repr

/-- Outward effects attempted by a handler, in program order. -/
inductive Effect where
  | write (path : String) (id : String) (data : ApptData)
  | sendEmail (url : String) (method : String) (body : EmailRequest)
  deriving DecidableEq, Repr

/-- React state of `BookingPage` that `handleBooking` reads or sets. -/
structure BookingState where
  selectedDate : Int
  selectedTime : Option TimeSlot
  name : String
  email : String
  isLoading : Bool
  error : Option String
  success : Option String
  deriving DecidableEq, Repr

/-- What the outside world does during one call of a handler. -/
structure World where
  /-- value of `Timestamp.now()` -/
  now : Int
  /-- offset of the browser's local time zone from UTC, in minutes -/
  tzOffsetMin : Int
  /-- the backend commits the write (the `setDoc` promise resolves); otherwise
  the promise rejects -/
  writeCommits : Bool
  /-- the `fetch` promise resolves; otherwise it rejects -/
  fetchResolves : Bool
  deriving DecidableEq, Repr

/-- Outcome of one call of a handler. -/
structure Outcome where
  state : BookingState
  db : Option (Collection ApptData)
  effects : List Effect
  console : List String
  deriving Repr

/-- Template literal `${dateStr}T${selectedTime}` (also `${...}T${time}` in
`isSlotBooked`). -/
def slotId (dateStr time : String) : String := dateStr ++ "T" ++ time

/-- Model of `await setDoc(doc(db, publicAppointmentsPath, slotId), apptData)`:
resolves, leaving the written collection, when the backend commits the write;
rejects otherwise. -/
def awaitSetDoc (w : World) (store : Collection ApptData) (id : String) (data : ApptData) :
    Except String (Collection ApptData) :=
  if w.writeCommits then .ok (setDoc store id data) else .error "write rejected"

/-- Model of `await fetch('/api/send-email', ...)`: the response is not
inspected, only whether the promise resolves. -/
def awaitFetch (w : World) : Except String Unit :=
  if w.fetchResolves then .ok () else .error "fetch failed"

/-- Model of `handleBooking`.  `db` is the appointments collection reachable
through the `db` prop (`none` when Firebase is not configured), `userId` the
`userId` prop (`null` and the empty string are falsy). -/
def handleBooking (db : Option (Collection ApptData)) (userId : Option String)
    (w : World) (st : BookingState) : Outcome :=
  match db, userId with
  | some store, some uid =>
    if uid == "" then
      { state := { st with error := some "Cannot connect to booking system. Please refresh." },
        db := db, effects := [], console := [] }
    else
    match st.selectedTime with
    | none =>
      { state := { st with error := some "Please select a time slot." },
        db := db, effects := [], console := [] }
    | some selectedTime =>
      -- setIsLoading(true); setError(null); setSuccess(null)
      let dateStr := isoDate st.selectedDate
      let slotId := slotId dateStr selectedTime.label
      let bookingTimestamp :=
        localDateTime w.tzOffsetMin (dayOf st.selectedDate) selectedTime.minuteOfDay
      let apptData : ApptData :=
        { slotId := slotId, date := dateStr, time := selectedTime.label,
          patientName := st.name, patientEmail := st.email, bookedBy := uid,
          bookedAt := w.now, bookingTimestamp := bookingTimestamp }
      match awaitSetDoc w store slotId apptData with
      | .ok written =>
        let formattedDate := formatDateIN st.selectedDate
        let request : EmailRequest :=
          { type := "appointment", name := st.name, email := st.email,
            date := formattedDate, time := selectedTime.label }
        let warnings :=
          match awaitFetch w with
          | .ok _ => []
          | .error _ => ["Booking was successful, but email notification failed:"]
        { state :=
            { st with
              selectedTime := none, name := "", email := "", isLoading := false,
              error := none,
              success := some ("Appointment confirmed for " ++ st.name ++ " on " ++
                formattedDate ++ " at " ++ selectedTime.label ++
                " IST. Please check your email for payment details and the meeting link.") },
          db := some written,
          effects := [.write publicAppointmentsPath slotId apptData,
                      .sendEmail "/api/send-email" "POST" request],
          console := warnings }
      | .error _ =>
        { state :=
            { st with
              isLoading := false, success := none,
              error := some "This slot may have just been booked. Please try another slot." },
          db := db,
          effects := [.write publicAppointmentsPath slotId apptData],
          console := ["Error booking appointment:"] }
  | _, _ =>
    { state := { st with error := some "Cannot connect to booking system. Please refresh." },
      db := db, effects := [], console := [] }

/-- One client's call of `handleBooking`: its identity, what the world does
during the call, and its form state. -/
structure Submission where
  userId : Option String
  world : World
  state : BookingState
  deriving Repr

/-- Successive calls of `handleBooking` by clients that share one store: each
call starts from the store left by the previous one. -/
def runBookings (db : Option (Collection ApptData)) : List Submission → List Outcome
  | [] => []
  | s :: rest =>
    let out := handleBooking db s.userId s.world s.state
    out :: runBookings out.db rest

/-- Result of the booked-slots query
`where("bookingTimestamp", ">=", Timestamp.fromDate(today))` mapped through
`doc.data().slotId`, as the snapshot callback passes it to `setBookedSlots`. -/
def snapshotSlots (today : Int) (store : Collection ApptData) : List String :=
  (store.filter (fun kv => decide (today ≤ kv.2.bookingTimestamp))).map (fun kv => kv.2.slotId)

/-- The `bookedSlots` state after the listener effect ran at instant `today` and
delivered a snapshot of `db`; it stays at its initial value `[]` when the effect
returns early. -/
def bookedSlots (db : Option (Collection ApptData)) (isAuthReady : Bool) (today : Int) :
    List String :=
  match db with
  | some store => if isAuthReady then snapshotSlots today store else []
  | none => []

/-- Model of `isSlotBooked`. -/
def isSlotBooked (bookedSlots : List String) (date : Int) (time : String) : Bool :=
  let slotId := slotId (isoDate date) time
  bookedSlots.contains slotId

/-! ## The send-email API route (`src/pages/api/send-email.js`) -/

/-- Constant `DOCTOR_NAME`. -/
def DOCTOR_NAME : String := "Dr. Pratikshya K. Padhy"

/-- Constant `DOCTOR_EMAIL`. -/
def DOCTOR_EMAIL : String := "kshyapratik@gmail.com"

/-- Constant `CLINIC_NAME`. -/
def CLINIC_NAME : String := "Dr. Pratikshya\x27s Clinic"

/-- Constant `GOOGLE_MEET_LINK`. -/
def GOOGLE_MEET_LINK : String := "https://meet.google.com/your-static-link"

/-- Constant `UPI_ID`. -/
def UPI_ID : String := "doctor.pratikshya@upi"

/-- Constant `CONSULTATION_FEE`. -/
def CONSULTATION_FEE : String := "₹500"

/-- The fields destructured from `req.body`.  Each is a string or absent
(`undefined`); other JSON values are not modelled. -/
structure RequestBody where
  type : Option String
  name : Option String
  email : Option String
  date : Option String
  time : Option String
  upiId : Option String
  deriving DecidableEq, Repr

/-- The request as the handler reads it. -/
structure ApiRequest where
  method : String
  body : RequestBody
  deriving DecidableEq, Repr

/-- String conversion of a template substitution: an absent value is written
`undefined`. -/
def jsStr : Option String → String
  | some s => s
  | none => "undefined"

/-- Template literal assigned to `patientHtmlBody` in the `appointment` branch. -/
def appointmentPatientHtml (b : RequestBody) : String :=
  String.join [
    "\n",
    "        <div style=\"font-family: Arial, sans-serif; line-height: 1.6;\">\n",
    "          <h1 style=\"color: #0694A2;\">Appointment Confirmed!</h1>\n",
    "          <p>Hi ",
    jsStr b.name,
    ",</p>\n",
    "          <p>Your consultation with <strong>",
    DOCTOR_NAME,
    "</strong> is confirmed for:</p>\n",
    "          <p style=\"font-size: 1.2em; font-weight: bold; color: #333;\">\n",
    "            ",
    jsStr b.date,
    " at ",
    jsStr b.time,
    " IST\n",
    "          </p>\n",
    "          <p style=\"font-weight: bold;\">Please add this event to your personal calendar to get a reminder.</p>\n",
    "          <hr style=\"border: 0; border-top: 1px solid #eee; margin: 20px 0;\">\n",
    "          \n",
    "          <h2 style=\"color: #0694A2;\">Next Steps:</h2>\n",
    "          <ol>\n",
    "            <li>\n",
    "              <strong>Payment:</strong> Please send the consultation fee of <strong>",
    CONSULTATION_FEE,
    "</strong> to the following UPI ID:\n",
    "              <br>\n",
    "              <strong style=\"font-size: 1.1em; color: #000;\">",
    UPI_ID,
    "</strong>\n",
    "            </li>\n",
    "            <li>\n",
    "              <strong>Join the Call:</strong> At your scheduled time, please join the Google Meet using the link below:\n",
    "              <br>\n",
    "              <a href=\"",
    GOOGLE_MEET_LINK,
    "\" style=\"color: #0694A2; text-decoration: none;\">",
    GOOGLE_MEET_LINK,
    "</a>\n",
    "            </li>\n",
    "          </ol>\n",
    "          \n",
    "          <p>We look forward to speaking with you!</p>\n",
    "          <br>\n",
    "          <p style=\"font-size: 0.9em; color: #777;\">\n",
    "            Best,\n",
    "            <br>\n",
    "            ",
    CLINIC_NAME,
    "\n",
    "          </p>\n",
    "        </div>\n",
    "      "]

/-- Template literal assigned to `doctorSubject` in the `appointment` branch. -/
def appointmentDoctorSubject (b : RequestBody) : String :=
  String.join [
    "New Appointment: ",
    jsStr b.name,
    " on ",
    jsStr b.date]

/-- Template literal assigned to `doctorHtmlBody` in the `appointment` branch. -/
def appointmentDoctorHtml (b : RequestBody) : String :=
  String.join [
    "\n",
    "        <p>You have a new appointment:</p>\n",
    "        <ul>\n",
    "          <li><strong>Patient:</strong> ",
    jsStr b.name,
    "</li>\n",
    "          <li><strong>Email:</strong> ",
    jsStr b.email,
    "</li>\n",
    "          <li><strong>Date:</strong> ",
    jsStr b.date,
    "</li>\n",
    "          <li><strong>Time:</strong> ",
    jsStr b.time,
    " IST</li>\n",
    "          <li><strong>Service:</strong> Consultation</li>\n",
    "        </ul>\n",
    "      "]

/-- Template literal assigned to `patientHtmlBody` in the `discovery` branch. -/
def discoveryPatientHtml (b : RequestBody) : String :=
  String.join [
    "\n",
    "        <div style=\"font-family: Arial, sans-serif; line-height: 1.6;\">\n",
    "          <h1 style=\"color: #0694A2;\">Discovery Call Confirmed!</h1>\n",
    "          <p>Hi ",
    jsStr b.name,
    ",</p>\n",
    "          <p>Your <strong>",
    CONSULTATION_FEE,
    "</strong> Discovery Call with <strong>",
    DOCTOR_NAME,
    "</strong> is confirmed for your preferred date of:</p>\n",
    "          <p style=\"font-size: 1.2em; font-weight: bold; color: #333;\">\n",
    "            ",
    jsStr b.date,
    "\n",
    "          </p>\n",
    "          <p>We have received your UPI Transaction ID (<strong>",
    jsStr b.upiId,
    "</strong>) for verification and will contact you shortly at <strong>",
    jsStr b.email,
    "</strong> to finalize the exact time.</p>\n",
    "          <hr style=\"border: 0; border-top: 1px solid #eee; margin: 20px 0;\">\n",
    "          <h2 style=\"color: #0694A2;\">Meeting Link:</h2>\n",
    "          <p>Once the time is set, please use the Google Meet link below for our call:</p>\n",
    "          <a href=\"",
    GOOGLE_MEET_LINK,
    "\" style=\"color: #0694A2; text-decoration: none;\">",
    GOOGLE_MEET_LINK,
    "</a>\n",
    "          <br>\n",
    "          <p>We look forward to speaking with you!</p>\n",
    "          <br>\n",
    "          <p style=\"font-size: 0.9em; color: #777;\">\n",
    "            Best,\n",
    "            <br>\n",
    "            ",
    CLINIC_NAME,
    "\n",
    "          </p>\n",
    "        </div>\n",
    "      "]

/-- Template literal assigned to `doctorSubject` in the `discovery` branch. -/
def discoveryDoctorSubject (b : RequestBody) : String :=
  String.join [
    "New Discovery Call: ",
    jsStr b.name,
    " on ",
    jsStr b.date]

/-- Template literal assigned to `doctorHtmlBody` in the `discovery` branch. -/
def discoveryDoctorHtml (b : RequestBody) : String :=
  String.join [
    "\n",
    "        <p>You have a new discovery call booking:</p>\n",
    "        <ul>\n",
    "          <li><strong>Patient:</strong> ",
    jsStr b.name,
    "</li>\n",
    "          <li><strong>Email:</strong> ",
    jsStr b.email,
    "</li>\n",
    "          <li><strong>Preferred Date:</strong> ",
    jsStr b.date,
    "</li>\n",
    "          <li><strong>UPI ID:</strong> ",
    jsStr b.upiId,
    "</li>\n",
    "          <li><strong>Service:</strong> Discovery Call</li>\n",
    "        </ul>\n",
    "      "]

/-- The four strings the handler fills in per booking type. -/
structure Templates where
  patientSubject : String
  patientHtmlBody : String
  doctorSubject : String
  doctorHtmlBody : String
  deriving DecidableEq, Repr

/-- The assignments of the `type === 'appointment'` branch. -/
def appointmentTemplates (b : RequestBody) : Templates :=
  { patientSubject := "Your Appointment is Confirmed!",
    patientHtmlBody := appointmentPatientHtml b,
    doctorSubject := appointmentDoctorSubject b,
    doctorHtmlBody := appointmentDoctorHtml b }

/-- The assignments of the `type === 'discovery'` branch. -/
def discoveryTemplates (b : RequestBody) : Templates :=
  { patientSubject := "Your Discovery Call is Confirmed!",
    patientHtmlBody := discoveryPatientHtml b,
    doctorSubject := discoveryDoctorSubject b,
    doctorHtmlBody := discoveryDoctorHtml b }

/-- Argument of `resend.emails.send`.  `sender` is the `from` property, `recipients` the `to`
property, `cc` lists the `email` of each CC entry and is `none` when the property is absent. -/
structure Mail where
  sender : String
  recipients : List (Option String)
  cc : Option (List String)
  subject : String
  html : String
  deriving DecidableEq, Repr

/-- JSON body of the response. -/
inductive ResponseBody where
  | message (text : String)
  | error (text : String)
  deriving DecidableEq, Repr

/-- The response sent through `res.status(...).json(...)`. -/
structure Response where
  status : Nat
  body : ResponseBody
  deriving DecidableEq, Repr

/-- What the mail service does during one call of the handler.  For each of the
two `resend.emails.send` calls: whether its promise resolves, and whether the
value it resolves with carries an `error` instead of `data`, which is how the
Resend client reports a send that failed (message refused, service error).  A
promise that rejects stands for an exception thrown by the call. -/
structure MailWorld where
  firstSendResolves : Bool
  secondSendResolves : Bool
  firstSendRefused : Bool := false
  secondSendRefused : Bool := false
  deriving DecidableEq, Repr

/-- Result of one call of the handler: the response, the messages handed to
`resend.emails.send` in call order, and the console output. -/
structure HandlerOutcome where
  response : Response
  sends : List Mail
  console : List String
  deriving DecidableEq, Repr

/-- Model of `await resend.emails.send(...)`: the handler does not look at the
awaited value, so only a rejection of the promise reaches its `catch`. -/
def awaitSend (resolves : Bool) : Except String Unit :=
  if resolves then .ok () else .error "send failed"

/-- The first message: to the patient, CC to the doctor. -/
def patientMail (b : RequestBody) (t : Templates) : Mail :=
  { sender := String.join [CLINIC_NAME, " <noreply@your-verified-domain.com>"],
    recipients := [b.email],
    cc := some [DOCTOR_EMAIL],
    subject := t.patientSubject,
    html := t.patientHtmlBody }

/-- The second message: to the doctor only. -/
def doctorMail (t : Templates) : Mail :=
  { sender := "Clinic System <notify@your-verified-domain.com>",
    recipients := [some DOCTOR_EMAIL],
    cc := none,
    subject := t.doctorSubject,
    html := t.doctorHtmlBody }

/-- The `if / else if / else` on `type`: the templates of the booking type, or
`none` for the final `else` branch. -/
def selectTemplates (b : RequestBody) : Option Templates :=
  if b.type == some "appointment" then some (appointmentTemplates b)
  else if b.type == some "discovery" then some (discoveryTemplates b)
  else none

/-- Model of the default export `handler(req, res)`. -/
def handler (w : MailWorld) (req : ApiRequest) : HandlerOutcome :=
  if req.method != "POST" then
    { response := { status := 405, body := .error "Method Not Allowed" },
      sends := [], console := [] }
  else
    match selectTemplates req.body with
    | none =>
      { response := { status := 400, body := .error "Invalid booking type" },
        sends := [], console := [] }
    | some t =>
      match awaitSend w.firstSendResolves with
      | .error _ =>
        { response :=
            { status := 200,
              body := .message "Booking successful, but email notification failed." },
          sends := [patientMail req.body t],
          console := ["Error sending email:"] }
      | .ok _ =>
        match awaitSend w.secondSendResolves with
        | .error _ =>
          { response :=
              { status := 200,
                body := .message "Booking successful, but email notification failed." },
            sends := [patientMail req.body t, doctorMail t],
            console := ["Error sending email:"] }
        | .ok _ =>
          { response :=
              { status := 200, body := .message "Booking successful and emails sent." },
            sends := [patientMail req.body t, doctorMail t],
            console := [] }

/-- Text containment: `part` occurs in `text` as a contiguous substring. -/
def containsText (text part : String) : Prop := part.data <:+: text.data

/-! ## Slot calendar -/

/-- The browser's local time zone as the `Date` methods consult it.  Offsets are
in minutes east of UTC and may change over time (daylight saving). -/
structure TimeZone where
  /-- offset in force at a UTC instant (`LocalTZA(t, true)`) -/
  offsetAt : Int → Int
  /-- offset with which a local wall-clock time value is read back as an instant
  (`LocalTZA(t, false)`); for a wall-clock time that a transition skips or
  repeats this is the offset from before the transition -/
  offsetOfLocal : Int → Int

/-- `LocalTime(t)`: the local wall-clock time value of an instant. -/
def TimeZone.localTime (z : TimeZone) (t : Int) : Int :=
  t + z.offsetAt t * msPerMinute

/-- `UTC(t)`: the instant of a local wall-clock time value. -/
def TimeZone.utc (z : TimeZone) (localTime : Int) : Int :=
  localTime - z.offsetOfLocal localTime * msPerMinute

/-- A zone without offset changes, such as Asia/Kolkata (330). -/
def fixedZone (offsetMin : Int) : TimeZone :=
  { offsetAt := fun _ => offsetMin, offsetOfLocal := fun _ => offsetMin }

/-- America/New_York around the start of daylight saving time on 9 March 2025:
UTC-5 until 2025-03-09T07:00:00Z (02:00 local), UTC-4 from then on; wall-clock
times from 03:00 on that day are read with UTC-4. -/
def newYorkSpring2025 : TimeZone :=
  { offsetAt := fun t => if t < 1741503600000 then -300 else -240,
    offsetOfLocal := fun localTime => if localTime < 1741489200000 then -300 else -240 }

/-- Model of `date.setDate(today.getDate() + i)` on a copy of `today`: in local
time the day number advances by `i` (`MakeDay` with the day of month increased
by `i`), the time within the day is kept, and the result is read back as an
instant. -/
def addLocalDays (z : TimeZone) (today : Int) (i : Int) : Int :=
  let localTime := z.localTime today
  z.utc ((dayOf localTime + i) * msPerDay + localTime % msPerDay)

/-- Model of `availableDates` (the same loop in `BookingPage` and in
`DiscoveryCallPage`), computed at instant `today`. -/
def availableDates (z : TimeZone) (today : Int) : List Int :=
  (List.range 15).map (fun i : Nat => addLocalDays z today (i : Int))

/-! ## Discovery call page -/

/-- Collection path `discoveryCallPath`. -/
def discoveryCallPath : String := "artifacts/" ++ appId ++ "/public/data/discovery_calls"

/-- Model of `date.toLocaleDateString('en-IN', { day: 'numeric', month: 'long',
year: 'numeric' })`: as `formatDateIN`, in the browser's local zone. -/
def formatDateLocal (tzOffsetMin : Int) (t : Int) : String :=
  let c := civilFromDays (dayOf (t + tzOffsetMin * msPerMinute))
  String.mk (Nat.toDigits 10 c.2.2) ++ " " ++ monthNames.getD (c.2.1 - 1) "" ++ " " ++
    String.mk (Nat.toDigits 10 c.1.toNat)

/-- The document passed to `addDoc` by `handleSubmit`. -/
structure DiscoveryDoc where
  name : String
  email : String
  message : String
  preferredDate : String
  preferredDateISO : String
  bookedBy : String
  bookedAt : Int
  status : String
  deriving DecidableEq, Repr

/-- React state of `DiscoveryCallPage`.  `selectedDate` is `none` for a falsy
value. -/
structure DiscoveryState where
  name : String
  email : String
  message : String
  selectedDate : Option Int
  isLoading : Bool
  error : Option String
  success : Bool
  deriving DecidableEq, Repr

/-- Outward effects attempted by `handleSubmit`, in program order. -/
inductive DiscoveryEffect where
  | append (path : String) (id : String) (data : DiscoveryDoc)
  | sendEmail (url : String) (method : String) (body : EmailRequest)
  deriving DecidableEq, Repr

/-- What the outside world does during one call of `handleSubmit`: as `World`,
and `autoId` is the document id that the Firestore client generates for
`addDoc`. -/
structure SubmitWorld extends World where
  autoId : String
  deriving DecidableEq, Repr

/-- Outcome of one call of `handleSubmit`. -/
structure DiscoveryOutcome where
  state : DiscoveryState
  db : Option (Collection DiscoveryDoc)
  effects : List DiscoveryEffect
  console : List String
  deriving Repr

/-- Model of `addDoc(collection(db, path), data)` as committed by the backend:
the document is created under the generated id `autoId`; the write carries the
precondition that no document exists under that id, so it fails (`none`) when
one does. -/
def addDoc {α : Type} (c : Collection α) (autoId : String) (data : α) :
    Option (Collection α) :=
  if (c.getDoc autoId).isSome then none else some (c ++ [(autoId, data)])

/-- Model of `await addDoc(...)`: resolves, leaving the extended collection,
when the backend commits the write; rejects otherwise. -/
def awaitAddDoc (w : SubmitWorld) (store : Collection DiscoveryDoc) (data : DiscoveryDoc) :
    Except String (Collection DiscoveryDoc) :=
  if w.writeCommits then
    match addDoc store w.autoId data with
    | some written => .ok written
    | none => .error "document already exists"
  else .error "write rejected"

/-- Model of `handleSubmit`.  `db` is the discovery-calls collection reachable
through the `db` prop, `userId` the `userId` prop; `new Date()` in the form
reset is taken at `w.now`. -/
def handleSubmit (db : Option (Collection DiscoveryDoc)) (userId : Option String)
    (w : SubmitWorld) (st : DiscoveryState) : DiscoveryOutcome :=
  -- setError(null); setSuccess(false)
  let cleared : DiscoveryState := { st with error := none, success := false }
  if st.name == "" || st.email == "" || st.message == "" then
    { state := { cleared with error := some "Please fill out all fields." },
      db := db, effects := [], console := [] }
  else
  match st.selectedDate with
  | none =>
    { state := { cleared with error := some "Please select a preferred date." },
      db := db, effects := [], console := [] }
  | some selectedDate =>
    match db, userId with
    | some store, some uid =>
      if uid == "" then
        { state :=
            { cleared with error := some "Cannot connect to booking system. Please refresh." },
          db := db, effects := [], console := [] }
      else
        -- setIsLoading(true)
        let formattedDate := formatDateLocal w.tzOffsetMin selectedDate
        let record : DiscoveryDoc :=
          { name := st.name, email := st.email, message := st.message,
            preferredDate := formattedDate, preferredDateISO := isoDate selectedDate,
            bookedBy := uid, bookedAt := w.now, status := "pending_confirmation" }
        match awaitAddDoc w store record with
        | .ok written =>
          let request : EmailRequest :=
            { type := "discovery", name := st.name, email := st.email,
              date := formattedDate, time := "To be confirmed" }
          let warnings :=
            match awaitFetch w.toWorld with
            | .ok _ => []
            | .error _ =>
              ["Discovery call booking was successful, but email notification failed:"]
          { state :=
              { cleared with
                name := "", email := "", message := "", selectedDate := some w.now,
                success := true, isLoading := false },
            db := some written,
            effects := [.append discoveryCallPath w.autoId record,
                        .sendEmail "/api/send-email" "POST" request],
            console := warnings }
        | .error _ =>
          { state :=
              { cleared with
                isLoading := false,
                error := some "There was an error submitting your booking. Please try again." },
            db := db,
            effects := [.append discoveryCallPath w.autoId record],
            console := ["Error submitting booking:"] }
    | _, _ =>
      { state :=
          { cleared with error := some "Cannot connect to booking system. Please refresh." },
        db := db, effects := [], console := [] }

/-! ## Offered slots, effect counts and the request on the wire -/

/-- The `(date, time)` pairs the booking page lets a patient pick: any date
button rendered from `availableDates` with any time button rendered from
`timeSlots`, dates first. -/
def slotCalendar (z : TimeZone) (today : Int) : List (Int × String) :=
  List.product (availableDates z today) timeSlots

/-- The effect is a store write (`setDoc` call). -/
def Effect.isWrite : Effect → Bool
  | .write _ _ _ => true
  | .sendEmail _ _ _ => false

/-- The effect is a request to the send-email route (`fetch` call). -/
def Effect.isSendEmail : Effect → Bool
  | .write _ _ _ => false
  | .sendEmail _ _ _ => true

/-- The body the send-email route reads for a request built by the pages:
`JSON.stringify` writes the five properties `type`, `name`, `email`, `date`,
`time` of the object literal, and `req.body` is that JSON parsed, so `upiId`,
which neither page puts into the object, is absent. -/
def requestBodyOf (r : EmailRequest) : RequestBody :=
  { type := some r.type, name := some r.name, email := some r.email, date := some r.date,
    time := some r.time, upiId := none }

/-! ## Generated document ids -/

/-- Model of the document id that the Firestore client generates for `addDoc`.
The client draws a random 20-character id, which the service documents as
unique within the collection; the model takes an id that no document of the
collection has: one character longer than the longest id in use. -/
def newAutoId {α : Type} (c : Collection α) : String :=
  String.mk (List.replicate (c.foldr (fun kv n => max kv.1.length n) 0 + 1) 'a')

/-- One discovery submission from the page: `handleSubmit` in the world `w`,
with the document id that the Firestore client generates for the collection as
it stands at the call. -/
def submitDiscovery (db : Option (Collection DiscoveryDoc)) (userId : Option String)
    (w : World) (st : DiscoveryState) : DiscoveryOutcome :=
  handleSubmit db userId { toWorld := w, autoId := newAutoId (db.getD []) } st

/-! ## Sample inputs -/

/-- Sample state: the patient picked 1 June 2025 (instant 2025-06-01T14:00:00Z,
19:30 IST) and the 19:00 slot. -/
def sampleState : BookingState :=
  { selectedDate := 1748786400000, selectedTime := some .t1900, name := "A",
    email := "a@x.com", isLoading := false, error := none, success := none }

/-- Sample world: IST browser, the write commits, the notification resolves. -/
def sampleWorld : World :=
  { now := 1748786400000, tzOffsetMin := 330, writeCommits := true, fetchResolves := true }

/-- State of patient A's page at submission. -/
def patientA : BookingState :=
  { selectedDate := 1748772000000, selectedTime := some .t1800, name := "A",
    email := "a@x.com", isLoading := false, error := none, success := none }

/-- State of patient B's page at submission. -/
def patientB : BookingState :=
  { selectedDate := 1748772000000, selectedTime := some .t1800, name := "B",
    email := "b@x.com", isLoading := false, error := none, success := none }

/-- World during A's call. -/
def worldA : World :=
  { now := 1748772000000, tzOffsetMin := 330, writeCommits := true, fetchResolves := true }

/-- World during B's call, one minute later. -/
def worldB : World :=
  { now := 1748772060000, tzOffsetMin := 330, writeCommits := true, fetchResolves := true }

/-- The reservation written by A. -/
def recordA : ApptData :=
  { slotId := "2025-06-01T18:00", date := "2025-06-01", time := "18:00",
    patientName := "A", patientEmail := "a@x.com", bookedBy := "uA",
    bookedAt := 1748772000000, bookingTimestamp := 1748781000000 }

/-- The reservation written by B. -/
def recordB : ApptData :=
  { slotId := "2025-06-01T18:00", date := "2025-06-01", time := "18:00",
    patientName := "B", patientEmail := "b@x.com", bookedBy := "uB",
    bookedAt := 1748772060000, bookingTimestamp := 1748781000000 }

/-- Body of the request that `handleBooking` sends for the sample booking. -/
def sampleBody : RequestBody :=
  { type := some "appointment", name := some "A", email := some "a@x.com",
    date := some "1 June 2025", time := some "19:00", upiId := none }

/-- Sample POST request to the send-email route. -/
def sampleRequest : ApiRequest := { method := "POST", body := sampleBody }

/-- The reservation written for the sample booking. -/
def sampleRecord : ApptData :=
  { slotId := "2025-06-01T19:00", date := "2025-06-01", time := "19:00",
    patientName := "A", patientEmail := "a@x.com", bookedBy := "u1",
    bookedAt := 1748786400000, bookingTimestamp := 1748784600000 }

/-- Sample discovery form: name, email, message and the date 1 June 2025
(instant 2025-06-01T14:00:00Z). -/
def sampleDiscovery : DiscoveryState :=
  { name := "A", email := "a@x.com", message := "hello", selectedDate := some 1748786400000,
    isLoading := false, error := none, success := false }

/-- Sample world for a first discovery submission: IST browser, the write
commits under the generated id `id1`. -/
def submitWorld1 : SubmitWorld :=
  { now := 1748786400000, tzOffsetMin := 330, writeCommits := true, fetchResolves := true,
    autoId := "id1" }

/-- Sample world for a second discovery submission, one minute later, under
the generated id `id2`. -/
def submitWorld2 : SubmitWorld :=
  { now := 1748786460000, tzOffsetMin := 330, writeCommits := true, fetchResolves := true,
    autoId := "id2" }

/-- The booking page opened at 02:00 IST on 2 June 2025 (instant
2025-06-01T20:30:00Z) with the default date and the 18:00 slot selected. -/
def nightState : BookingState :=
  { selectedDate := 1748809800000, selectedTime := some .t1800, name := "A",
    email := "a@x.com", isLoading := false, error := none, success := none }

/-- World of the night booking: IST browser, write and notification succeed. -/
def nightWorld : World :=
  { now := 1748809800000, tzOffsetMin := 330, writeCommits := true, fetchResolves := true }

/-- The request that `handleSubmit` builds for the sample discovery form. -/
def sampleDiscoveryRequest : EmailRequest :=
  { type := "discovery", name := "A", email := "a@x.com", date := "1 June 2025",
    time := "To be confirmed" }

/-- The discovery page opened at 02:00 IST on 2 June 2025 (instant
2025-06-01T20:30:00Z), form filled in, default preferred date. -/
def nightDiscovery : DiscoveryState :=
  { name := "A", email := "a@x.com", message := "hello", selectedDate := some 1748809800000,
    isLoading := false, error := none, success := false }

/-- World of the night discovery submission: IST browser, the write commits
under the generated id `id1`. -/
def nightSubmitWorld : SubmitWorld :=
  { now := 1748809800000, tzOffsetMin := 330, writeCommits := true, fetchResolves := true,
    autoId := "id1" }

/-! ## Calendar checks -/

theorem isoDate_samples :
    isoDate 0 = "1970-01-01" ∧ isoDate (-1) = "1969-12-31" ∧
      isoDate 951782400000 = "2000-02-29" ∧ isoDate 1735689599999 = "2024-12-31" ∧
      isoDate 1735689600000 = "2025-01-01" ∧ isoDate 1748786400000 = "2025-06-01" ∧
      formatDateIN 1748786400000 = "1 June 2025" ∧
      formatDateIN 1735669800000 = "1 January 2025" := by
  decide

/-! ## Slot identifiers -/

theorem timeSlots_length {t : String} (h : t ∈ timeSlots) : t.length = 5 := by
  simp only [timeSlots, List.mem_cons, List.mem_singleton, List.not_mem_nil, or_false] at h
  rcases h with h | h | h | h <;> subst h <;> rfl

theorem label_mem_timeSlots (t : TimeSlot) : t.label ∈ timeSlots := by
  cases t <;> simp [TimeSlot.label, timeSlots]

theorem slotId_data (d t : String) : (slotId d t).data = d.data ++ ('T' :: t.data) := by
  simp [slotId, String.data_append]

/-- C4: the slot identifier is a function of `(date, time)` that is injective
on dates paired with the four time labels: equal identifiers come from equal
dates and equal labels.  It holds for arbitrary date strings, in particular for
ISO calendar dates `YYYY-MM-DD`. -/
theorem slotId_injective (d1 d2 t1 t2 : String) (h1 : t1 ∈ timeSlots) (h2 : t2 ∈ timeSlots)
    (h : slotId d1 t1 = slotId d2 t2) : d1 = d2 ∧ t1 = t2 := by
  have hd : (slotId d1 t1).data = (slotId d2 t2).data := by rw [h]
  rw [slotId_data, slotId_data] at hd
  have hl : ('T' :: t1.data).length = ('T' :: t2.data).length := by
    have e1 := timeSlots_length h1
    have e2 := timeSlots_length h2
    simp only [String.length] at e1 e2
    simp [e1, e2]
  obtain ⟨ha, hb⟩ := List.append_inj' hd hl
  refine ⟨String.ext ha, String.ext ?_⟩
  simpa using hb

theorem slotId_injective_witness :
    "18:00" ∈ timeSlots ∧ "18:00" ∈ timeSlots ∧
      slotId "2025-06-01" "18:00" = slotId "2025-06-01" "18:00" ∧
      ("2025-06-01" = "2025-06-01" ∧ "18:00" = "18:00") :=
  ⟨by decide, by decide, rfl, slotId_injective "2025-06-01" "2025-06-01" "18:00" "18:00"
    (by decide) (by decide) rfl⟩

/-! ## Store lemmas -/

theorem getDoc_setDoc {α : Type} (c : Collection α) (id : String) (data : α) :
    (setDoc c id data).getDoc id = some data := by
  simp [setDoc, Collection.getDoc]

theorem mem_snapshotSlots_setDoc (today : Int) (c : Collection ApptData) (id : String)
    (data : ApptData) (h : today ≤ data.bookingTimestamp) :
    data.slotId ∈ snapshotSlots today (setDoc c id data) := by
  simp [snapshotSlots, setDoc, List.filter_cons, h]

/-! ## One call of `handleBooking` -/

theorem handleBooking_write_rejected (store : Collection ApptData) (uid : String)
    (w : World) (st : BookingState) (t : TimeSlot) (hu : uid ≠ "")
    (ht : st.selectedTime = some t) (hw : w.writeCommits = false) :
    (handleBooking (some store) (some uid) w st).state.error =
        some "This slot may have just been booked. Please try another slot." ∧
      (handleBooking (some store) (some uid) w st).state.success = none ∧
      (handleBooking (some store) (some uid) w st).db = some store := by
  unfold handleBooking
  simp [hu, ht, hw, awaitSetDoc]

/-- C5: every record that `handleBooking` writes has `slotId = date ++ "T" ++ time`
for its own `date` and `time` fields, is written under the document id `slotId`
in the appointments collection, and `isSlotBooked` looks up that same identifier
for the same date and time; when the write commits the store holds the record
under that key. -/
theorem handleBooking_record_key (db : Option (Collection ApptData)) (userId : Option String)
    (w : World) (st : BookingState) (path id : String) (data : ApptData)
    (h : Effect.write path id data ∈ (handleBooking db userId w st).effects) :
    data.slotId = data.date ++ "T" ++ data.time ∧ id = data.slotId ∧
      path = publicAppointmentsPath ∧ data.date = isoDate st.selectedDate ∧
      st.selectedTime.map TimeSlot.label = some data.time ∧
      (∀ bs : List String, isSlotBooked bs st.selectedDate data.time = bs.contains data.slotId) ∧
      (w.writeCommits = true →
        ∃ store, (handleBooking db userId w st).db = some store ∧ store.getDoc id = some data) := by
  unfold handleBooking at h ⊢
  cases db with
  | none => simp at h
  | some store =>
    cases userId with
    | none => simp at h
    | some uid =>
      by_cases hu : uid = ""
      · simp [hu] at h
      · cases ht : st.selectedTime with
        | none => simp [hu, ht] at h
        | some t =>
          cases hw : w.writeCommits <;>
            simp [hu, ht, hw, awaitSetDoc] at h ⊢ <;>
            obtain ⟨rfl, rfl, rfl⟩ := h <;>
            simp [slotId, isSlotBooked, getDoc_setDoc]

theorem handleBooking_record_key_witness :
    (Effect.write publicAppointmentsPath "2025-06-01T19:00"
        { slotId := "2025-06-01T19:00", date := "2025-06-01", time := "19:00",
          patientName := "A", patientEmail := "a@x.com", bookedBy := "u1",
          bookedAt := 1748786400000, bookingTimestamp := 1748784600000 } ∈
      (handleBooking (some []) (some "u1") sampleWorld sampleState).effects) ∧
    "2025-06-01T19:00" = "2025-06-01" ++ "T" ++ "19:00" :=
  have h : Effect.write publicAppointmentsPath "2025-06-01T19:00"
        { slotId := "2025-06-01T19:00", date := "2025-06-01", time := "19:00",
          patientName := "A", patientEmail := "a@x.com", bookedBy := "u1",
          bookedAt := 1748786400000, bookingTimestamp := 1748784600000 } ∈
      (handleBooking (some []) (some "u1") sampleWorld sampleState).effects := by decide
  ⟨h, (handleBooking_record_key _ _ _ _ _ _ _ h).1⟩

/-- C6: a submission with no time selected is rejected: `handleBooking` sets an
error, reports no success, leaves the store as it was and attempts neither a
store write nor a notification request, whatever date, name and email are.  With
the store and the caller identity available the error is the validation message
"Please select a time slot.". -/
theorem handleBooking_no_time_rejected (db : Option (Collection ApptData))
    (userId : Option String) (w : World) (st : BookingState) (h : st.selectedTime = none) :
    (handleBooking db userId w st).effects = [] ∧
      (handleBooking db userId w st).db = db ∧
      (handleBooking db userId w st).state.success = st.success ∧
      (handleBooking db userId w st).state.error ≠ none ∧
      (∀ store uid, db = some store → userId = some uid → uid ≠ "" →
        (handleBooking db userId w st).state.error = some "Please select a time slot.") := by
  unfold handleBooking
  cases db with
  | none => simp
  | some store =>
    cases userId with
    | none => simp
    | some uid =>
      by_cases hu : uid = ""
      · simp [hu]
      · simp [hu, h]

theorem handleBooking_no_time_rejected_witness :
    (handleBooking (some []) (some "u1") sampleWorld
        { sampleState with selectedTime := none }).effects = [] ∧
      (handleBooking (some []) (some "u1") sampleWorld
        { sampleState with selectedTime := none }).state.error =
        some "Please select a time slot." :=
  have h := handleBooking_no_time_rejected (some []) (some "u1") sampleWorld
    { sampleState with selectedTime := none } rfl
  ⟨h.1, h.2.2.2.2 [] "u1" rfl rfl (by decide)⟩

/-- C8: when the store write succeeds, `handleBooking` reports the booking as
confirmed, with the success message set and no error, whether the notification
request resolves or rejects. -/
theorem handleBooking_confirmed_despite_notification (store : Collection ApptData)
    (uid : String) (w : World) (st : BookingState) (t : TimeSlot) (fetchResolves : Bool)
    (hu : uid ≠ "") (ht : st.selectedTime = some t) (hw : w.writeCommits = true) :
    (handleBooking (some store) (some uid) { w with fetchResolves := fetchResolves } st).state.success
        = some ("Appointment confirmed for " ++ st.name ++ " on " ++
            formatDateIN st.selectedDate ++ " at " ++ t.label ++
            " IST. Please check your email for payment details and the meeting link.") ∧
      (handleBooking (some store) (some uid) { w with fetchResolves := fetchResolves } st).state.error
        = none ∧
      (handleBooking (some store) (some uid) { w with fetchResolves := fetchResolves } st).state.isLoading
        = false ∧
      (handleBooking (some store) (some uid) { w with fetchResolves := fetchResolves } st).console
        = (if fetchResolves then []
           else ["Booking was successful, but email notification failed:"]) := by
  unfold handleBooking
  cases fetchResolves <;> simp [hu, ht, hw, awaitSetDoc, awaitFetch]

theorem handleBooking_confirmed_despite_notification_witness :
    (handleBooking (some []) (some "u1") { sampleWorld with fetchResolves := false }
        sampleState).state.success
      = some ("Appointment confirmed for A on 1 June 2025 at 19:00 IST. " ++
          "Please check your email for payment details and the meeting link.") ∧
    (handleBooking (some []) (some "u1") { sampleWorld with fetchResolves := false }
        sampleState).state.error = none :=
  have h := handleBooking_confirmed_despite_notification [] "u1" sampleWorld sampleState
    .t1900 false (by decide) rfl rfl
  ⟨h.1.trans (by decide), h.2.1⟩

/-- C9: in every run of `handleBooking` a notification request is issued only
after the reservation write has completed successfully: if a request appears
among the effects, the write committed and is the one effect before it; if the
write is rejected, or the submission is rejected before the write, no request
is made. -/
theorem handleBooking_notifies_only_after_commit (db : Option (Collection ApptData))
    (userId : Option String) (w : World) (st : BookingState) :
    (∀ url method body,
        Effect.sendEmail url method body ∈ (handleBooking db userId w st).effects →
        w.writeCommits = true ∧
        ∃ store id data, db = some store ∧
          (handleBooking db userId w st).db = some (setDoc store id data) ∧
          (handleBooking db userId w st).effects =
            [Effect.write publicAppointmentsPath id data, Effect.sendEmail url method body]) ∧
      (w.writeCommits = false →
        ∀ url method body,
          Effect.sendEmail url method body ∉ (handleBooking db userId w st).effects) ∧
      (db = none ∨ userId = none ∨ userId = some "" ∨ st.selectedTime = none →
        (handleBooking db userId w st).effects = []) := by
  unfold handleBooking
  cases db with
  | none => simp
  | some store =>
    cases userId with
    | none => simp
    | some uid =>
      by_cases hu : uid = ""
      · simp [hu]
      · cases ht : st.selectedTime with
        | none => simp [hu]
        | some t =>
          cases hw : w.writeCommits <;> simp [hu, hw, awaitSetDoc]
          intro url method body h1 h2 h3
          subst h1 h2 h3
          exact ⟨_, _, rfl, ⟨rfl, rfl⟩, rfl, rfl, rfl⟩

theorem handleBooking_notifies_only_after_commit_witness :
    (∀ url method body,
      Effect.sendEmail url method body ∉
        (handleBooking (some []) (some "u1") { sampleWorld with writeCommits := false }
          sampleState).effects) ∧
    (handleBooking none (some "u1") sampleWorld sampleState).effects = [] :=
  ⟨(handleBooking_notifies_only_after_commit (some []) (some "u1")
      { sampleWorld with writeCommits := false } sampleState).2.1 rfl,
   (handleBooking_notifies_only_after_commit none (some "u1") sampleWorld sampleState).2.2
      (Or.inl rfl)⟩

/-! ## Name and email -/

/-- C7 (code evaluated at the failing input): called with an empty name and an
empty email (the initial state of both fields) and a selected time,
`handleBooking` sets no error, writes the record with empty patient fields,
reports the booking as confirmed and sends the confirmation request.  The
sibling handler `handleSubmit`, given the same empty fields, rejects the
submission with "Please fill out all fields." and attempts nothing. -/
theorem handleBooking_empty_name_email_writes :
    (handleBooking (some []) (some "u1") sampleWorld
        { sampleState with name := "", email := "" }).state.error = none ∧
    (handleBooking (some []) (some "u1") sampleWorld
        { sampleState with name := "", email := "" }).state.success =
      some ("Appointment confirmed for  on 1 June 2025 at 19:00 IST. " ++
        "Please check your email for payment details and the meeting link.") ∧
    (handleBooking (some []) (some "u1") sampleWorld
        { sampleState with name := "", email := "" }).db =
      some [("2025-06-01T19:00",
        { slotId := "2025-06-01T19:00", date := "2025-06-01", time := "19:00",
          patientName := "", patientEmail := "", bookedBy := "u1",
          bookedAt := 1748786400000, bookingTimestamp := 1748784600000 })] ∧
    ((handleBooking (some []) (some "u1") sampleWorld
        { sampleState with name := "", email := "" }).effects.map Effect.isSendEmail) =
      [false, true] ∧
    (handleSubmit (some []) (some "u1") submitWorld1
        { sampleDiscovery with name := "", email := "" }).state.error =
      some "Please fill out all fields." ∧
    (handleSubmit (some []) (some "u1") submitWorld1
        { sampleDiscovery with name := "", email := "" }).effects = [] := by
  decide

/-! ## Occupied slots after a booking -/

/-- C10 (code evaluated at the failing input): the page is opened at 19:30 IST
on 1 June 2025, the 19:00 slot of that day, which the page offers, is booked for
A (a@x.com) and the write commits; the booked-slots query set up at 19:30 IST
does not return `2025-06-01T19:00`, so `isSlotBooked` is false for the slot just
booked and the slot stays open for another booking. -/
theorem isSlotBooked_false_after_booking_past_slot :
    (handleBooking (some []) (some "u1") sampleWorld sampleState).state.success ≠ none ∧
    (handleBooking (some []) (some "u1") sampleWorld sampleState).db =
      some [("2025-06-01T19:00",
        { slotId := "2025-06-01T19:00", date := "2025-06-01", time := "19:00",
          patientName := "A", patientEmail := "a@x.com", bookedBy := "u1",
          bookedAt := 1748786400000, bookingTimestamp := 1748784600000 })] ∧
    bookedSlots (handleBooking (some []) (some "u1") sampleWorld sampleState).db true
      1748786400000 = [] ∧
    isSlotBooked
      (bookedSlots (handleBooking (some []) (some "u1") sampleWorld sampleState).db true
        1748786400000)
      sampleState.selectedDate "19:00" = false := by
  decide

/-- Slots that have not started: after a successful `handleBooking` for
`(date, time)` whose start instant `bookingTimestamp` is not before the instant
`today` at which the booked-slots query was set up, the occupied-slot list
contains `date ++ "T" ++ time` and `isSlotBooked(date, time)` is true. -/
theorem isSlotBooked_after_booking (store : Collection ApptData) (uid : String) (w : World)
    (st : BookingState) (t : TimeSlot) (today : Int) (hu : uid ≠ "")
    (ht : st.selectedTime = some t) (hw : w.writeCommits = true)
    (hfuture : today ≤ localDateTime w.tzOffsetMin (dayOf st.selectedDate) t.minuteOfDay) :
    slotId (isoDate st.selectedDate) t.label ∈
        bookedSlots (handleBooking (some store) (some uid) w st).db true today ∧
      isSlotBooked (bookedSlots (handleBooking (some store) (some uid) w st).db true today)
        st.selectedDate t.label = true := by
  have hmem : slotId (isoDate st.selectedDate) t.label ∈
      bookedSlots (handleBooking (some store) (some uid) w st).db true today := by
    unfold handleBooking
    simp only [hu, ht, hw, awaitSetDoc, bookedSlots, beq_iff_eq, if_false, if_true]
    exact mem_snapshotSlots_setDoc today store _
      { slotId := slotId (isoDate st.selectedDate) t.label, date := isoDate st.selectedDate,
        time := t.label, patientName := st.name, patientEmail := st.email, bookedBy := uid,
        bookedAt := w.now,
        bookingTimestamp := localDateTime w.tzOffsetMin (dayOf st.selectedDate) t.minuteOfDay }
      hfuture
  refine ⟨hmem, ?_⟩
  simpa [isSlotBooked] using hmem

theorem isSlotBooked_after_booking_witness :
    isSlotBooked
      (bookedSlots (handleBooking (some []) (some "u1") sampleWorld sampleState).db true
        1748782800000)
      sampleState.selectedDate "19:00" = true :=
  (isSlotBooked_after_booking [] "u1" sampleWorld sampleState .t1900 1748782800000
    (by decide) rfl rfl (by decide)).2

/-! ## Two bookings of one slot

Patients A and B both have the page open at 15:30 IST on 1 June 2025
(2025-06-01T10:00:00Z), both with the 18:00 slot of that day selected, and
submit one after the other.  The backend commits each `setDoc` write, which is
what the call does unless the backend is configured to refuse it. -/

/-- C1 (code evaluated at the failing input): the store already holds A's
reservation under `2025-06-01T18:00`; B's booking of the same slot sets no
error, reports the appointment as confirmed and sends the confirmation request
to `/api/send-email`. -/
theorem handleBooking_taken_slot_confirmed :
    Collection.getDoc [("2025-06-01T18:00", recordA)] "2025-06-01T18:00" = some recordA ∧
    (handleBooking (some [("2025-06-01T18:00", recordA)]) (some "uB") worldB patientB).state.error
      = none ∧
    (handleBooking (some [("2025-06-01T18:00", recordA)]) (some "uB") worldB patientB).state.success
      = some ("Appointment confirmed for B on 1 June 2025 at 18:00 IST. " ++
          "Please check your email for payment details and the meeting link.") ∧
    (handleBooking (some [("2025-06-01T18:00", recordA)]) (some "uB") worldB patientB).effects
      = [Effect.write publicAppointmentsPath "2025-06-01T18:00" recordB,
         Effect.sendEmail "/api/send-email" "POST"
           { type := "appointment", name := "B", email := "b@x.com", date := "1 June 2025",
             time := "18:00" }] := by
  decide

/-- C2 (code evaluated at the failing input): A's booking creates the record
under `2025-06-01T18:00`; after B's booking of the same slot the record stored
under that key is B's, with another patient name, email and `bookedBy`. -/
theorem handleBooking_second_write_overwrites :
    (handleBooking (some []) (some "uA") worldA patientA).db =
      some [("2025-06-01T18:00", recordA)] ∧
    (handleBooking (some [("2025-06-01T18:00", recordA)]) (some "uB") worldB patientB).db =
      some [("2025-06-01T18:00", recordB)] ∧
    recordA.patientName ≠ recordB.patientName ∧
    recordA.patientEmail ≠ recordB.patientEmail ∧
    recordA.bookedBy ≠ recordB.bookedBy := by
  decide

/-- C3 (code evaluated at the failing input): A and B race for the same slot.
Each call performs one store write, so an interleaving is an order of the two
writes; in either order both calls are confirmed, none is turned away, and the
store ends with the record of whoever wrote last. -/
theorem racing_bookings_both_confirmed :
    (runBookings (some []) [⟨some "uA", worldA, patientA⟩, ⟨some "uB", worldB, patientB⟩]).map
        (fun out => (out.state.error, out.state.success.isSome, out.db)) =
      [(none, true, some [("2025-06-01T18:00", recordA)]),
       (none, true, some [("2025-06-01T18:00", recordB)])] ∧
    (runBookings (some []) [⟨some "uB", worldB, patientB⟩, ⟨some "uA", worldA, patientA⟩]).map
        (fun out => (out.state.error, out.state.success.isSome, out.db)) =
      [(none, true, some [("2025-06-01T18:00", recordB)]),
       (none, true, some [("2025-06-01T18:00", recordA)])] := by
  constructor <;> rfl

/-! ## The send-email route: responses -/

theorem selectTemplates_appointment (b : RequestBody) (h : b.type = some "appointment") :
    selectTemplates b = some (appointmentTemplates b) := by
  simp [selectTemplates, h]

theorem selectTemplates_discovery (b : RequestBody) (h : b.type = some "discovery") :
    selectTemplates b = some (discoveryTemplates b) := by
  simp [selectTemplates, h]

theorem selectTemplates_invalid (b : RequestBody) (h1 : b.type ≠ some "appointment")
    (h2 : b.type ≠ some "discovery") : selectTemplates b = none := by
  simp [selectTemplates, h1, h2]

theorem selectTemplates_isSome (b : RequestBody)
    (h : b.type = some "appointment" ∨ b.type = some "discovery") :
    ∃ t, selectTemplates b = some t := by
  rcases h with h | h
  · exact ⟨_, selectTemplates_appointment b h⟩
  · exact ⟨_, selectTemplates_discovery b h⟩

/-- C12: a POST request whose type is `appointment` or `discovery` is answered
with status 200 and a message body, whatever the two sends do: both resolve,
the first rejects, or the second rejects. -/
theorem handler_valid_type_status_200 (w : MailWorld) (req : ApiRequest)
    (hm : req.method = "POST")
    (ht : req.body.type = some "appointment" ∨ req.body.type = some "discovery") :
    (handler w req).response.status = 200 ∧
      ((handler w req).response.body = .message "Booking successful and emails sent." ∨
       (handler w req).response.body =
         .message "Booking successful, but email notification failed.") := by
  obtain ⟨t, hsel⟩ := selectTemplates_isSome req.body ht
  unfold handler
  cases h1 : w.firstSendResolves <;> cases h2 : w.secondSendResolves <;>
    simp [hm, hsel, awaitSend]

theorem handler_valid_type_status_200_witness :
    (handler { firstSendResolves := false, secondSendResolves := true }
        sampleRequest).response.status = 200 ∧
    (handler { firstSendResolves := true, secondSendResolves := false }
        sampleRequest).response.status = 200 :=
  ⟨(handler_valid_type_status_200 { firstSendResolves := false, secondSendResolves := true }
      sampleRequest rfl (Or.inl rfl)).1,
   (handler_valid_type_status_200 { firstSendResolves := true, secondSendResolves := false }
      sampleRequest rfl (Or.inl rfl)).1⟩

/-- C13: a POST request whose type is neither `appointment` nor `discovery`
(an absent type included) is answered with status 400 and an error body, and a
POST request is answered with 400 only in that case. -/
theorem handler_invalid_type_status_400 (w : MailWorld) (req : ApiRequest)
    (hm : req.method = "POST") :
    (req.body.type ≠ some "appointment" ∧ req.body.type ≠ some "discovery" →
        (handler w req).response =
          { status := 400, body := .error "Invalid booking type" }) ∧
      ((handler w req).response.status = 400 →
        req.body.type ≠ some "appointment" ∧ req.body.type ≠ some "discovery") := by
  constructor
  · rintro ⟨h1, h2⟩
    simp [handler, hm, selectTemplates_invalid req.body h1 h2]
  · intro h
    by_contra hc
    have hv : req.body.type = some "appointment" ∨ req.body.type = some "discovery" := by
      by_cases ha : req.body.type = some "appointment"
      · exact Or.inl ha
      · by_cases hd : req.body.type = some "discovery"
        · exact Or.inr hd
        · exact absurd ⟨ha, hd⟩ hc
    have h200 := (handler_valid_type_status_200 w req hm hv).1
    omega

theorem handler_invalid_type_status_400_witness :
    (handler { firstSendResolves := true, secondSendResolves := true }
        { sampleRequest with body := { sampleBody with type := none } }).response =
      { status := 400, body := .error "Invalid booking type" } :=
  (handler_invalid_type_status_400 { firstSendResolves := true, secondSendResolves := true }
    { sampleRequest with body := { sampleBody with type := none } } rfl).1
    ⟨by decide, by decide⟩

/-- C14: a request whose method is not POST is answered with status 405 and an
error body, whatever its body is, and no POST request is answered with 405. -/
theorem handler_non_post_status_405 (w : MailWorld) (req : ApiRequest) :
    (req.method ≠ "POST" →
        (handler w req).response =
          { status := 405, body := .error "Method Not Allowed" }) ∧
      (req.method = "POST" → (handler w req).response.status ≠ 405) := by
  constructor
  · intro h
    simp [handler, h]
  · intro hm
    unfold handler
    cases hsel : selectTemplates req.body <;>
      cases h1 : w.firstSendResolves <;> cases h2 : w.secondSendResolves <;>
      simp [hm, awaitSend]

theorem handler_non_post_status_405_witness :
    (handler { firstSendResolves := true, secondSendResolves := true }
        { sampleRequest with method := "GET" }).response =
      { status := 405, body := .error "Method Not Allowed" } ∧
    (handler { firstSendResolves := true, secondSendResolves := true }
        sampleRequest).response.status ≠ 405 :=
  ⟨(handler_non_post_status_405 { firstSendResolves := true, secondSendResolves := true }
      { sampleRequest with method := "GET" }).1 (by decide),
   (handler_non_post_status_405 { firstSendResolves := true, secondSendResolves := true }
      sampleRequest).2 rfl⟩

/-! ## The send-email route: messages -/

/-- The `catch` path of the first send: when the promise of the first call
rejects (an exception thrown by the call, not the way the Resend client reports
a failed send), only the patient message has been handed to the mail service
and the response is the 200 failure message. -/
theorem handler_first_send_fails_skips_second :
    (handler { firstSendResolves := false, secondSendResolves := true } sampleRequest).sends =
        [patientMail sampleBody (appointmentTemplates sampleBody)] ∧
      doctorMail (appointmentTemplates sampleBody) ∉
        (handler { firstSendResolves := false, secondSendResolves := true } sampleRequest).sends ∧
      (handler { firstSendResolves := false, secondSendResolves := true } sampleRequest).response =
        { status := 200,
          body := .message "Booking successful, but email notification failed." } := by
  refine ⟨rfl, ?_, rfl⟩
  have hs : (handler { firstSendResolves := false, secondSendResolves := true }
      sampleRequest).sends = [patientMail sampleBody (appointmentTemplates sampleBody)] := rfl
  rw [hs, List.mem_singleton]
  intro h
  have hcc := congrArg Mail.cc h
  simp [doctorMail, patientMail] at hcc

/-- C15: the two sends are attempted independently of each other's result: for
every valid request on which the first send (patient email, CC to the clinic)
fails, which the Resend client reports by resolving the promise with an error,
the second, direct clinic-only send is still attempted; the handler hands the
clinic message to the mail service whether the first send was accepted or
refused. -/
theorem handler_failed_first_send_still_sends_clinic_mail (w : MailWorld) (req : ApiRequest)
    (refused : Bool) (hm : req.method = "POST")
    (ht : req.body.type = some "appointment" ∨ req.body.type = some "discovery")
    (hres : w.firstSendResolves = true) :
    ∃ t, selectTemplates req.body = some t ∧
      (handler { w with firstSendRefused := refused } req).sends =
        [patientMail req.body t, doctorMail t] ∧
      doctorMail t ∈ (handler { w with firstSendRefused := refused } req).sends := by
  obtain ⟨t, hsel⟩ := selectTemplates_isSome req.body ht
  have hs : (handler { w with firstSendRefused := refused } req).sends =
      [patientMail req.body t, doctorMail t] := by
    unfold handler
    cases h2 : w.secondSendResolves <;> simp [hm, hsel, hres, h2, awaitSend]
  refine ⟨t, hsel, hs, ?_⟩
  rw [hs]
  simp

theorem handler_failed_first_send_still_sends_clinic_mail_witness :
    ∃ t, selectTemplates sampleBody = some t ∧
      (handler { firstSendResolves := true, secondSendResolves := true,
                 firstSendRefused := true } sampleRequest).sends =
        [patientMail sampleBody t, doctorMail t] := by
  obtain ⟨t, hsel, hs, _⟩ :=
    handler_failed_first_send_still_sends_clinic_mail
      { firstSendResolves := true, secondSendResolves := true } sampleRequest true rfl
      (Or.inl rfl) rfl
  exact ⟨t, hsel, hs⟩

/-- C16: for a valid request on which both sends are reached the handler hands
exactly two messages to the mail service, in this order: the patient message,
addressed to the request's email with the clinic address in CC, then a message
addressed to the clinic address alone, without CC; subjects and HTML bodies are
the patient and clinic templates of the requested type. -/
theorem handler_two_messages (w : MailWorld) (req : ApiRequest) (hm : req.method = "POST")
    (ht : req.body.type = some "appointment" ∨ req.body.type = some "discovery")
    (h1 : w.firstSendResolves = true) :
    ∃ patient clinic, (handler w req).sends = [patient, clinic] ∧
      patient.recipients = [req.body.email] ∧ patient.cc = some [DOCTOR_EMAIL] ∧
      clinic.recipients = [some DOCTOR_EMAIL] ∧ clinic.cc = none ∧
      (req.body.type = some "appointment" →
        patient.subject = "Your Appointment is Confirmed!" ∧
        patient.html = appointmentPatientHtml req.body ∧
        clinic.subject = appointmentDoctorSubject req.body ∧
        clinic.html = appointmentDoctorHtml req.body) ∧
      (req.body.type = some "discovery" →
        patient.subject = "Your Discovery Call is Confirmed!" ∧
        patient.html = discoveryPatientHtml req.body ∧
        clinic.subject = discoveryDoctorSubject req.body ∧
        clinic.html = discoveryDoctorHtml req.body) := by
  rcases ht with ht | ht
  · refine ⟨patientMail req.body (appointmentTemplates req.body),
      doctorMail (appointmentTemplates req.body), ?_, rfl, rfl, rfl, rfl, ?_, ?_⟩
    · unfold handler
      cases h2 : w.secondSendResolves <;>
        simp [hm, h1, selectTemplates_appointment req.body ht, awaitSend]
    · intro _
      exact ⟨rfl, rfl, rfl, rfl⟩
    · intro hd
      rw [ht] at hd
      exact absurd hd (by decide)
  · refine ⟨patientMail req.body (discoveryTemplates req.body),
      doctorMail (discoveryTemplates req.body), ?_, rfl, rfl, rfl, rfl, ?_, ?_⟩
    · unfold handler
      cases h2 : w.secondSendResolves <;>
        simp [hm, h1, selectTemplates_discovery req.body ht, awaitSend]
    · intro ha
      rw [ht] at ha
      exact absurd ha (by decide)
    · intro _
      exact ⟨rfl, rfl, rfl, rfl⟩

theorem handler_two_messages_witness :
    ∃ patient clinic,
      (handler { firstSendResolves := true, secondSendResolves := true } sampleRequest).sends =
        [patient, clinic] ∧
      patient.recipients = [some "a@x.com"] ∧ patient.cc = some [DOCTOR_EMAIL] ∧
      clinic.recipients = [some DOCTOR_EMAIL] ∧ clinic.cc = none := by
  obtain ⟨patient, clinic, hs, hr, hcc, hr2, hcc2, _⟩ :=
    handler_two_messages { firstSendResolves := true, secondSendResolves := true }
      sampleRequest rfl (Or.inl rfl) rfl
  exact ⟨patient, clinic, hs, hr, hcc, hr2, hcc2⟩

/-! ## The send-email route: template contents -/

theorem foldl_append_data (parts : List String) (acc : String) :
    (parts.foldl (fun r s => r ++ s) acc).data = acc.data ++ (parts.map String.data).flatten := by
  induction parts generalizing acc with
  | nil => simp
  | cons p ps ih => simp [List.foldl_cons, ih, String.data_append, List.append_assoc]

theorem join_data (parts : List String) :
    (String.join parts).data = (parts.map String.data).flatten := by
  simp [String.join, foldl_append_data]

theorem containsText_join (parts : List String) (part : String) (h : part ∈ parts) :
    containsText (String.join parts) part := by
  unfold containsText
  rw [join_data]
  exact List.infix_of_mem_flatten (List.mem_map_of_mem String.data h)

/-- C17: for a request of type `appointment`, whatever name, email, date and
time are, the patient-facing HTML body contains the payment instructions (the
consultation fee and the UPI ID) and the meeting link, together with the
request's name, date and time, and the clinic-facing body contains the name,
email, date and time (an absent field appears as the text `undefined`). -/
theorem appointment_templates_contents (b : RequestBody) (h : b.type = some "appointment") :
    ∃ t, selectTemplates b = some t ∧
      containsText t.patientHtmlBody CONSULTATION_FEE ∧
      containsText t.patientHtmlBody UPI_ID ∧
      containsText t.patientHtmlBody GOOGLE_MEET_LINK ∧
      containsText t.patientHtmlBody (jsStr b.name) ∧
      containsText t.patientHtmlBody (jsStr b.date) ∧
      containsText t.patientHtmlBody (jsStr b.time) ∧
      containsText t.doctorHtmlBody (jsStr b.name) ∧
      containsText t.doctorHtmlBody (jsStr b.email) ∧
      containsText t.doctorHtmlBody (jsStr b.date) ∧
      containsText t.doctorHtmlBody (jsStr b.time) := by
  refine ⟨appointmentTemplates b, selectTemplates_appointment b h, ?_, ?_, ?_, ?_, ?_, ?_,
    ?_, ?_, ?_, ?_⟩ <;>
    exact containsText_join _ _ (by simp)

theorem appointment_templates_contents_witness :
    ∃ t, selectTemplates sampleBody = some t ∧
      containsText t.patientHtmlBody "₹500" ∧
      containsText t.patientHtmlBody "doctor.pratikshya@upi" ∧
      containsText t.patientHtmlBody "https://meet.google.com/your-static-link" ∧
      containsText t.patientHtmlBody "A" ∧
      containsText t.doctorHtmlBody "a@x.com" := by
  obtain ⟨t, hs, h1, h2, h3, h4, _, _, _, h8, _, _⟩ :=
    appointment_templates_contents sampleBody rfl
  exact ⟨t, hs, h1, h2, h3, h4, h8⟩

/-! ## Discovery requests -/

theorem getDoc_append_fresh {α : Type} (c : Collection α) (id : String) (data : α)
    (h : c.getDoc id = none) : (c ++ [(id, data)]).getDoc id = some data := by
  unfold Collection.getDoc at h ⊢
  simp only [Option.map_eq_none'] at h
  simp [List.find?_append, h]

theorem addDoc_fresh {α : Type} (c : Collection α) (id : String) (data : α)
    (h : c.getDoc id = none) : addDoc c id data = some (c ++ [(id, data)]) := by
  simp [addDoc, h]

/-- C18: a discovery submission in which name, email, message or the preferred
date is empty or missing is rejected with an error message, without store append
and without notification request; when all four are present and the store and
the caller identity are available, the record is handed to the store, and it is
in the collection once the backend commits the write under a new id. -/
theorem handleSubmit_validation (db : Option (Collection DiscoveryDoc))
    (userId : Option String) (w : SubmitWorld) (st : DiscoveryState) :
    (st.name = "" ∨ st.email = "" ∨ st.message = "" ∨ st.selectedDate = none →
        (handleSubmit db userId w st).effects = [] ∧
        (handleSubmit db userId w st).db = db ∧
        (handleSubmit db userId w st).state.success = false ∧
        ((handleSubmit db userId w st).state.error = some "Please fill out all fields." ∨
         (handleSubmit db userId w st).state.error =
           some "Please select a preferred date.")) ∧
      (∀ store uid date, st.name ≠ "" → st.email ≠ "" → st.message ≠ "" →
        st.selectedDate = some date → db = some store → userId = some uid → uid ≠ "" →
        ∃ record, record.name = st.name ∧ record.email = st.email ∧
          record.message = st.message ∧
          (handleSubmit db userId w st).effects.head? =
            some (DiscoveryEffect.append discoveryCallPath w.autoId record) ∧
          (w.writeCommits = true → store.getDoc w.autoId = none →
            (handleSubmit db userId w st).db = some (store ++ [(w.autoId, record)]))) := by
  constructor
  · intro h
    unfold handleSubmit
    by_cases hf : (st.name == "" || st.email == "" || st.message == "") = true
    · simp [hf]
    · have hd : st.selectedDate = none := by
        rcases h with h | h | h | h
        · exact absurd (by simp [h]) hf
        · exact absurd (by simp [h]) hf
        · exact absurd (by simp [h]) hf
        · exact h
      simp [hf, hd]
  · intro store uid date hn he hmsg hd hdb hu hne
    subst hdb hu
    refine ⟨{ name := st.name, email := st.email, message := st.message,
              preferredDate := formatDateLocal w.tzOffsetMin date,
              preferredDateISO := isoDate date, bookedBy := uid, bookedAt := w.now,
              status := "pending_confirmation" }, rfl, rfl, rfl, ?_, ?_⟩
    · unfold handleSubmit
      cases hw : w.writeCommits
      · simp [hn, he, hmsg, hd, hne, awaitAddDoc, hw]
      · cases hadd : addDoc store w.autoId
            { name := st.name, email := st.email, message := st.message,
              preferredDate := formatDateLocal w.tzOffsetMin date,
              preferredDateISO := isoDate date, bookedBy := uid, bookedAt := w.now,
              status := "pending_confirmation" } <;>
          simp [hn, he, hmsg, hd, hne, awaitAddDoc, hw, hadd]
    · intro hw hfresh
      unfold handleSubmit
      simp [hn, he, hmsg, hd, hne, awaitAddDoc, hw, addDoc_fresh _ _ _ hfresh]

theorem handleSubmit_validation_witness :
    (handleSubmit (some []) (some "u1") submitWorld1
        { sampleDiscovery with message := "" }).effects = [] ∧
    ∃ record, record.name = "A" ∧
      (handleSubmit (some []) (some "u1") submitWorld1 sampleDiscovery).db =
        some ([] ++ [("id1", record)]) := by
  have h := handleSubmit_validation (some []) (some "u1") submitWorld1
  refine ⟨((h { sampleDiscovery with message := "" }).1 (Or.inr (Or.inr (Or.inl rfl)))).1, ?_⟩
  obtain ⟨record, hn, _, _, _, hdb⟩ :=
    (h sampleDiscovery).2 [] "u1" 1748786400000 (by decide) (by decide) (by decide) rfl rfl rfl
      (by decide)
  exact ⟨record, hn, hdb rfl rfl⟩

/-- The record `handleSubmit` builds from the form state, the caller identity and
the world of the call. -/
theorem handleSubmit_commits (store : Collection DiscoveryDoc) (uid : String)
    (w : SubmitWorld) (st : DiscoveryState) (date : Int) (hn : st.name ≠ "")
    (he : st.email ≠ "") (hmsg : st.message ≠ "") (hd : st.selectedDate = some date)
    (hu : uid ≠ "") (hw : w.writeCommits = true) (hfresh : store.getDoc w.autoId = none) :
    (handleSubmit (some store) (some uid) w st).state.success = true ∧
      (handleSubmit (some store) (some uid) w st).state.error = none ∧
      (handleSubmit (some store) (some uid) w st).db =
        some (store ++ [(w.autoId,
          { name := st.name, email := st.email, message := st.message,
            preferredDate := formatDateLocal w.tzOffsetMin date,
            preferredDateISO := isoDate date, bookedBy := uid, bookedAt := w.now,
            status := "pending_confirmation" })]) := by
  unfold handleSubmit
  simp [hn, he, hmsg, hd, hu, awaitAddDoc, hw, addDoc_fresh _ _ _ hfresh]

theorem getDoc_eq_none_iff {α : Type} (c : Collection α) (id : String) :
    c.getDoc id = none ↔ ∀ kv ∈ c, kv.1 ≠ id := by
  unfold Collection.getDoc
  simp [Option.map_eq_none', List.find?_eq_none]

theorem length_le_foldr_max {α : Type} (c : Collection α) :
    ∀ kv ∈ c, kv.1.length ≤ c.foldr (fun kv n => max kv.1.length n) 0 := by
  induction c with
  | nil => intro kv h; cases h
  | cons head rest ih =>
    intro kv h
    rcases List.mem_cons.1 h with h | h
    · subst h
      simp
    · have := ih kv h
      simp only [List.foldr_cons]
      omega

theorem newAutoId_fresh {α : Type} (c : Collection α) : c.getDoc (newAutoId c) = none := by
  rw [getDoc_eq_none_iff]
  intro kv hkv heq
  have hlen := length_le_foldr_max c kv hkv
  have h2 : kv.1.length = (newAutoId c).length := by rw [heq]
  have hl : (newAutoId c).length = c.foldr (fun kv n => max kv.1.length n) 0 + 1 := by
    unfold newAutoId
    exact List.length_replicate _ _
  omega

/-- Two successive submissions of the same form state under ids that are new
when generated: both succeed and the collection ends with both records, each
carrying the submitted fields. -/
theorem handleSubmit_twice_of_new_ids (store : Collection DiscoveryDoc) (uid : String)
    (w1 w2 : SubmitWorld) (st : DiscoveryState) (date : Int) (hn : st.name ≠ "")
    (he : st.email ≠ "") (hmsg : st.message ≠ "") (hd : st.selectedDate = some date)
    (hu : uid ≠ "") (hw1 : w1.writeCommits = true) (hw2 : w2.writeCommits = true)
    (hfresh1 : store.getDoc w1.autoId = none) (hfresh2 : store.getDoc w2.autoId = none)
    (hids : w1.autoId ≠ w2.autoId) :
    ∃ r1 r2,
      (handleSubmit (some store) (some uid) w1 st).db = some (store ++ [(w1.autoId, r1)]) ∧
      (handleSubmit (some store) (some uid) w1 st).state.success = true ∧
      (handleSubmit (some store) (some uid) w1 st).state.error = none ∧
      (handleSubmit (some (store ++ [(w1.autoId, r1)])) (some uid) w2 st).db =
        some (store ++ [(w1.autoId, r1), (w2.autoId, r2)]) ∧
      (handleSubmit (some (store ++ [(w1.autoId, r1)])) (some uid) w2 st).state.success = true ∧
      (handleSubmit (some (store ++ [(w1.autoId, r1)])) (some uid) w2 st).state.error = none ∧
      Collection.getDoc (store ++ [(w1.autoId, r1), (w2.autoId, r2)]) w1.autoId = some r1 ∧
      Collection.getDoc (store ++ [(w1.autoId, r1), (w2.autoId, r2)]) w2.autoId = some r2 ∧
      (r1.name = st.name ∧ r1.email = st.email ∧ r1.message = st.message ∧
        r1.preferredDateISO = isoDate date ∧ r1.bookedBy = uid ∧
        r1.status = "pending_confirmation") ∧
      (r2.name = st.name ∧ r2.email = st.email ∧ r2.message = st.message ∧
        r2.preferredDateISO = isoDate date ∧ r2.bookedBy = uid ∧
        r2.status = "pending_confirmation") := by
  obtain ⟨hs1, he1, hdb1⟩ := handleSubmit_commits store uid w1 st date hn he hmsg hd hu hw1 hfresh1
  have hfresh2' : Collection.getDoc (store ++ [(w1.autoId,
      ({ name := st.name, email := st.email, message := st.message,
         preferredDate := formatDateLocal w1.tzOffsetMin date,
         preferredDateISO := isoDate date, bookedBy := uid, bookedAt := w1.now,
         status := "pending_confirmation" } : DiscoveryDoc))]) w2.autoId = none := by
    unfold Collection.getDoc at hfresh2 ⊢
    simp only [Option.map_eq_none'] at hfresh2 ⊢
    simp [List.find?_append, hfresh2, hids]
  obtain ⟨hs2, he2, hdb2⟩ := handleSubmit_commits _ uid w2 st date hn he hmsg hd hu hw2 hfresh2'
  refine ⟨
    { name := st.name, email := st.email, message := st.message,
      preferredDate := formatDateLocal w1.tzOffsetMin date,
      preferredDateISO := isoDate date, bookedBy := uid, bookedAt := w1.now,
      status := "pending_confirmation" },
    { name := st.name, email := st.email, message := st.message,
      preferredDate := formatDateLocal w2.tzOffsetMin date,
      preferredDateISO := isoDate date, bookedBy := uid, bookedAt := w2.now,
      status := "pending_confirmation" },
    hdb1, hs1, he1, ?_, hs2, he2, ?_, ?_, ⟨rfl, rfl, rfl, rfl, rfl, rfl⟩,
    ⟨rfl, rfl, rfl, rfl, rfl, rfl⟩⟩
  · rw [hdb2]
    simp
  · unfold Collection.getDoc at hfresh1 ⊢
    simp only [Option.map_eq_none'] at hfresh1
    simp [List.find?_append, hfresh1]
  · have h := getDoc_append_fresh _ w2.autoId
      ({ name := st.name, email := st.email, message := st.message,
         preferredDate := formatDateLocal w2.tzOffsetMin date,
         preferredDateISO := isoDate date, bookedBy := uid, bookedAt := w2.now,
         status := "pending_confirmation" } : DiscoveryDoc) hfresh2'
    simpa using h

/-- C19: submitting a discovery request twice with identical fields succeeds
both times, whatever the collection already holds (records equal to the new one
included), and leaves two independent records in the collection, each carrying
the submitted fields, under two distinct generated ids.  `handleSubmit` never
looks into the collection, so no submission is rejected because an equal record
exists.  The backend commits both writes; the ids are the ones the Firestore
client generates. -/
theorem submitDiscovery_twice_two_records (store : Collection DiscoveryDoc) (uid : String)
    (w1 w2 : World) (st : DiscoveryState) (date : Int) (hn : st.name ≠ "")
    (he : st.email ≠ "") (hmsg : st.message ≠ "") (hd : st.selectedDate = some date)
    (hu : uid ≠ "") (hw1 : w1.writeCommits = true) (hw2 : w2.writeCommits = true) :
    ∃ id1 id2 r1 r2,
      (submitDiscovery (some store) (some uid) w1 st).db = some (store ++ [(id1, r1)]) ∧
      (submitDiscovery (some store) (some uid) w1 st).state.success = true ∧
      (submitDiscovery (some store) (some uid) w1 st).state.error = none ∧
      (submitDiscovery (some (store ++ [(id1, r1)])) (some uid) w2 st).db =
        some (store ++ [(id1, r1), (id2, r2)]) ∧
      (submitDiscovery (some (store ++ [(id1, r1)])) (some uid) w2 st).state.success = true ∧
      (submitDiscovery (some (store ++ [(id1, r1)])) (some uid) w2 st).state.error = none ∧
      id1 ≠ id2 ∧ store.getDoc id1 = none ∧ store.getDoc id2 = none ∧
      Collection.getDoc (store ++ [(id1, r1), (id2, r2)]) id1 = some r1 ∧
      Collection.getDoc (store ++ [(id1, r1), (id2, r2)]) id2 = some r2 ∧
      (r1.name = st.name ∧ r1.email = st.email ∧ r1.message = st.message ∧
        r1.preferredDateISO = isoDate date ∧ r1.bookedBy = uid ∧
        r1.status = "pending_confirmation") ∧
      (r2.name = st.name ∧ r2.email = st.email ∧ r2.message = st.message ∧
        r2.preferredDateISO = isoDate date ∧ r2.bookedBy = uid ∧
        r2.status = "pending_confirmation") := by
  have hfresh1 := newAutoId_fresh store
  have hfreshAll := fun r1 : DiscoveryDoc => newAutoId_fresh (store ++ [(newAutoId store, r1)])
  have hsplit : ∀ r1 : DiscoveryDoc,
      store.getDoc (newAutoId (store ++ [(newAutoId store, r1)])) = none ∧
      newAutoId store ≠ newAutoId (store ++ [(newAutoId store, r1)]) := by
    intro r1
    have h := (getDoc_eq_none_iff _ _).1 (hfreshAll r1)
    refine ⟨(getDoc_eq_none_iff _ _).2 (fun kv hkv => h kv (List.mem_append_left _ hkv)), ?_⟩
    exact h (newAutoId store, r1) (List.mem_append_right _ (List.mem_singleton.2 rfl))
  let r1 : DiscoveryDoc :=
    { name := st.name, email := st.email, message := st.message,
      preferredDate := formatDateLocal w1.tzOffsetMin date,
      preferredDateISO := isoDate date, bookedBy := uid, bookedAt := w1.now,
      status := "pending_confirmation" }
  obtain ⟨q1, q2, h1, h2, h3, h4, h5, h6, h7, h8, h9, h10⟩ :=
    handleSubmit_twice_of_new_ids store uid
      { toWorld := w1, autoId := newAutoId store }
      { toWorld := w2, autoId := newAutoId (store ++ [(newAutoId store, r1)]) }
      st date hn he hmsg hd hu hw1 hw2 hfresh1 (hsplit r1).1 (hsplit r1).2
  have hq1 : q1 = r1 := by
    have hdb := (handleSubmit_commits store uid { toWorld := w1, autoId := newAutoId store }
      st date hn he hmsg hd hu hw1 hfresh1).2.2
    rw [hdb] at h1
    have := List.append_cancel_left (Option.some.inj h1)
    simpa [r1] using this.symm
  subst hq1
  refine ⟨newAutoId store, newAutoId (store ++ [(newAutoId store, r1)]), r1, q2,
    h1, h2, h3, h4, h5, h6, (hsplit r1).2, hfresh1, (hsplit r1).1, h7, h8, h9, h10⟩

theorem submitDiscovery_twice_two_records_witness :
    ∃ id1 id2 r1 r2,
      (submitDiscovery (some []) (some "u1") sampleWorld sampleDiscovery).db =
        some ([] ++ [(id1, r1)]) ∧
      (submitDiscovery (some ([] ++ [(id1, r1)])) (some "u1") sampleWorld sampleDiscovery).db =
        some ([] ++ [(id1, r1), (id2, r2)]) ∧
      id1 ≠ id2 ∧ r1.name = "A" ∧ r2.name = "A" := by
  obtain ⟨id1, id2, r1, r2, h1, _, _, h4, _, _, h7, _, _, _, _, h12, h13⟩ :=
    submitDiscovery_twice_two_records [] "u1" sampleWorld sampleWorld sampleDiscovery
      1748786400000 (by decide) (by decide) (by decide) rfl (by decide) rfl rfl
  exact ⟨id1, id2, r1, r2, h1, h4, h7, h12.1, h13.1⟩

/-- The fields of every record that `handleSubmit` hands to `addDoc`: status
`pending_confirmation`, the name, email and message of the form, the caller
identity, `preferredDate` formatted in the browser's zone and
`preferredDateISO` taken from the UTC date of the same instant. -/
theorem handleSubmit_record_fields (db : Option (Collection DiscoveryDoc))
    (userId : Option String) (w : SubmitWorld) (st : DiscoveryState) (path id : String)
    (data : DiscoveryDoc)
    (h : DiscoveryEffect.append path id data ∈ (handleSubmit db userId w st).effects) :
    data.status = "pending_confirmation" ∧ data.name = st.name ∧ data.email = st.email ∧
      data.message = st.message ∧ userId = some data.bookedBy ∧ data.bookedAt = w.now ∧
      path = discoveryCallPath ∧ id = w.autoId ∧
      ∃ date, st.selectedDate = some date ∧
        data.preferredDate = formatDateLocal w.tzOffsetMin date ∧
        data.preferredDateISO = isoDate date := by
  unfold handleSubmit at h
  by_cases hf : (st.name == "" || st.email == "" || st.message == "") = true
  · simp [hf] at h
  · cases hd : st.selectedDate with
    | none => simp [hf, hd] at h
    | some date =>
      cases db with
      | none => simp [hf, hd] at h
      | some store =>
        cases userId with
        | none => simp [hf, hd] at h
        | some uid =>
          by_cases hu : uid = ""
          · simp [hf, hd, hu] at h
          · cases hres : awaitAddDoc w store
                { name := st.name, email := st.email, message := st.message,
                  preferredDate := formatDateLocal w.tzOffsetMin date,
                  preferredDateISO := isoDate date, bookedBy := uid, bookedAt := w.now,
                  status := "pending_confirmation" } <;>
              simp [hf, hd, hu, hres] at h <;>
              obtain ⟨rfl, rfl, rfl⟩ := h <;>
              simp

theorem handleSubmit_record_fields_witness :
    DiscoveryEffect.append discoveryCallPath "id1"
        { name := "A", email := "a@x.com", message := "hello", preferredDate := "1 June 2025",
          preferredDateISO := "2025-06-01", bookedBy := "u1", bookedAt := 1748786400000,
          status := "pending_confirmation" } ∈
      (handleSubmit (some []) (some "u1") submitWorld1 sampleDiscovery).effects ∧
    "pending_confirmation" = "pending_confirmation" :=
  have h : DiscoveryEffect.append discoveryCallPath "id1"
        { name := "A", email := "a@x.com", message := "hello", preferredDate := "1 June 2025",
          preferredDateISO := "2025-06-01", bookedBy := "u1", bookedAt := 1748786400000,
          status := "pending_confirmation" } ∈
      (handleSubmit (some []) (some "u1") submitWorld1 sampleDiscovery).effects := by decide
  ⟨h, (handleSubmit_record_fields _ _ _ _ _ _ _ h).1⟩

/-! ## The occupied-slots view and the calendar window -/

theorem mem_snapshotSlots (q : Int) (store : Collection ApptData) (id : String)
    (r : ApptData) (hmem : (id, r) ∈ store) (h : q ≤ r.bookingTimestamp) :
    r.slotId ∈ snapshotSlots q store := by
  unfold snapshotSlots
  refine List.mem_map.2 ⟨(id, r), List.mem_filter.2 ⟨hmem, ?_⟩, rfl⟩
  simpa using h

/-- C11 (code evaluated at the failing input): at 19:30 IST on 1 June 2025 the
calendar offers that day and the 19:00 label, and the store holds the committed
reservation that `handleBooking` wrote for this slot; the booked-slots query set
up at that instant returns the empty list, so the view shows no occupied slot. -/
theorem snapshotSlots_misses_started_slot :
    (1748786400000 : Int) ∈ availableDates (fixedZone 330) 1748786400000 ∧
    "19:00" ∈ timeSlots ∧
    sampleRecord.slotId = slotId (isoDate 1748786400000) "19:00" ∧
    (handleBooking (some []) (some "u1") sampleWorld sampleState).db =
      some [("2025-06-01T19:00", sampleRecord)] ∧
    snapshotSlots 1748786400000 [("2025-06-01T19:00", sampleRecord)] = [] ∧
    bookedSlots (some [("2025-06-01T19:00", sampleRecord)]) true 1748786400000 = [] := by
  decide

/-! ## Discovery requests: notification -/

/-- C21: when the store append of a discovery submission succeeds,
`handleSubmit` reports success (`success = true`, no error) whether the
notification request resolves or rejects; and in every run a notification
request is issued only after the append succeeded: it is the one effect after
the committed append, and a rejected append is followed by no request. -/
theorem handleSubmit_success_despite_notification (store : Collection DiscoveryDoc)
    (uid : String) (w : SubmitWorld) (st : DiscoveryState) (date : Int)
    (fetchResolves : Bool) (hn : st.name ≠ "") (he : st.email ≠ "") (hmsg : st.message ≠ "")
    (hd : st.selectedDate = some date) (hu : uid ≠ "") (hw : w.writeCommits = true)
    (hfresh : store.getDoc w.autoId = none) :
    (handleSubmit (some store) (some uid) { w with fetchResolves := fetchResolves } st).state.success
        = true ∧
      (handleSubmit (some store) (some uid) { w with fetchResolves := fetchResolves } st).state.error
        = none ∧
      (handleSubmit (some store) (some uid) { w with fetchResolves := fetchResolves } st).console
        = (if fetchResolves then []
           else ["Discovery call booking was successful, but email notification failed:"]) ∧
      (∀ (db : Option (Collection DiscoveryDoc)) (userId : Option String) (w0 : SubmitWorld)
          (st0 : DiscoveryState) url method body,
        DiscoveryEffect.sendEmail url method body ∈ (handleSubmit db userId w0 st0).effects →
        w0.writeCommits = true ∧
        ∃ before record, db = some before ∧ before.getDoc w0.autoId = none ∧
          (handleSubmit db userId w0 st0).db = some (before ++ [(w0.autoId, record)]) ∧
          (handleSubmit db userId w0 st0).effects =
            [DiscoveryEffect.append discoveryCallPath w0.autoId record,
             DiscoveryEffect.sendEmail url method body]) := by
  refine ⟨?_, ?_, ?_, ?_⟩
  · unfold handleSubmit
    simp [hn, he, hmsg, hd, hu, awaitAddDoc, hw, addDoc_fresh _ _ _ hfresh]
  · unfold handleSubmit
    simp [hn, he, hmsg, hd, hu, awaitAddDoc, hw, addDoc_fresh _ _ _ hfresh]
  · unfold handleSubmit
    cases fetchResolves <;>
      simp [hn, he, hmsg, hd, hu, awaitAddDoc, awaitFetch, hw, addDoc_fresh _ _ _ hfresh]
  · intro db userId w0 st0 url method body h
    unfold handleSubmit at h ⊢
    by_cases hf : (st0.name == "" || st0.email == "" || st0.message == "") = true
    · simp [hf] at h
    · cases hd0 : st0.selectedDate with
      | none => simp [hf, hd0] at h
      | some date0 =>
        cases db with
        | none => simp [hf, hd0] at h
        | some before =>
          cases userId with
          | none => simp [hf, hd0] at h
          | some uid0 =>
            by_cases hu0 : uid0 = ""
            · simp [hf, hd0, hu0] at h
            · cases hw0 : w0.writeCommits
              · simp [hf, hd0, hu0, awaitAddDoc, hw0] at h
              · cases hg : before.getDoc w0.autoId with
                | some existing => simp [hf, hd0, hu0, awaitAddDoc, hw0, addDoc, hg] at h
                | none =>
                  simp [hf, hd0, hu0, awaitAddDoc, hw0, addDoc, hg] at h ⊢
                  obtain ⟨rfl, rfl, rfl⟩ := h
                  exact ⟨rfl, rfl, rfl⟩

theorem handleSubmit_success_despite_notification_witness :
    (handleSubmit (some []) (some "u1") { submitWorld1 with fetchResolves := false }
        sampleDiscovery).state.success = true ∧
    (handleSubmit (some []) (some "u1") { submitWorld1 with fetchResolves := false }
        sampleDiscovery).state.error = none :=
  have h := handleSubmit_success_despite_notification [] "u1" submitWorld1 sampleDiscovery
    1748786400000 false (by decide) (by decide) (by decide) rfl (by decide) rfl rfl
  ⟨h.1, h.2.1⟩

/-! ## The slot calendar -/

theorem fixedZone_keeps_day (offsetMin : Int) (localTime : Int) :
    dayOf ((fixedZone offsetMin).localTime ((fixedZone offsetMin).utc localTime)) =
      dayOf localTime := by
  simp [fixedZone, TimeZone.localTime, TimeZone.utc]

theorem newYorkSpring2025_keeps_day (localTime : Int) :
    dayOf (newYorkSpring2025.localTime (newYorkSpring2025.utc localTime)) = dayOf localTime := by
  simp only [newYorkSpring2025, TimeZone.localTime, TimeZone.utc, dayOf, msPerDay, msPerMinute]
  split_ifs <;> omega

theorem addLocalDays_localDay (z : TimeZone) (today i : Int)
    (hz : ∀ localTime, dayOf (z.localTime (z.utc localTime)) = dayOf localTime) :
    dayOf (z.localTime (addLocalDays z today i)) = dayOf (z.localTime today) + i := by
  unfold addLocalDays
  simp only [hz]
  simp only [dayOf, msPerDay]
  omega

theorem availableDates_nodup (z : TimeZone) (today : Int)
    (hz : ∀ localTime, dayOf (z.localTime (z.utc localTime)) = dayOf localTime) :
    (availableDates z today).Nodup := by
  unfold availableDates
  refine List.Nodup.map_on ?_ (List.nodup_range 15)
  intro i _ j _ h
  have hi := addLocalDays_localDay z today (i : Int) hz
  have hj := addLocalDays_localDay z today (j : Int) hz
  rw [h] at hi
  omega

theorem timeSlots_nodup : timeSlots.Nodup := by
  decide

/-- C22: for every value of `today` the slot calendar has exactly 15 dates, the
`i`-th of which falls on the local calendar day of `today` plus `i` days
(`0 <= i < 15`; day numbers count calendar days, so month and year ends are
crossed correctly), the first being on today's day and being `today` itself
when `today` reads back from its wall-clock time.  The time labels are the fixed
ordered list 18:00, 19:00, 20:00, 21:00, one hour apart, and dates crossed with
labels give 60 distinct bookable pairs.  The time zone is any zone, daylight
saving included, in which a wall-clock time is read as an instant of the same
local calendar day. -/
theorem slotCalendar_fifteen_days_four_slots (z : TimeZone) (today : Int)
    (hz : ∀ localTime, dayOf (z.localTime (z.utc localTime)) = dayOf localTime) :
    (availableDates z today).length = 15 ∧
      (∀ i : Nat, i < 15 →
        ∃ date, (availableDates z today)[i]? = some date ∧
          dayOf (z.localTime date) = dayOf (z.localTime today) + i ∧
          civilFromDays (dayOf (z.localTime date)) =
            civilFromDays (dayOf (z.localTime today) + i)) ∧
      (z.utc (z.localTime today) = today → (availableDates z today).head? = some today) ∧
      timeSlots = ["18:00", "19:00", "20:00", "21:00"] ∧
      [TimeSlot.t1800, TimeSlot.t1900, TimeSlot.t2000, TimeSlot.t2100].map TimeSlot.label =
        timeSlots ∧
      [TimeSlot.t1800, TimeSlot.t1900, TimeSlot.t2000, TimeSlot.t2100].map
        TimeSlot.minuteOfDay = [18 * 60, 18 * 60 + 60, 18 * 60 + 120, 18 * 60 + 180] ∧
      (slotCalendar z today).length = 60 ∧
      (slotCalendar z today).Nodup := by
  refine ⟨by simp [availableDates], ?_, ?_, rfl, rfl, by decide, ?_, ?_⟩
  · intro i hi
    refine ⟨addLocalDays z today (i : Int), ?_, ?_, ?_⟩
    · unfold availableDates
      rw [List.getElem?_map, List.getElem?_range hi]
      rfl
    · exact addLocalDays_localDay z today (i : Int) hz
    · rw [addLocalDays_localDay z today (i : Int) hz]
  · intro h
    have h0 : addLocalDays z today 0 = today := by
      have hsplit : (dayOf (z.localTime today) + 0) * msPerDay + z.localTime today % msPerDay =
          z.localTime today := by
        simp only [dayOf, msPerDay]
        omega
      unfold addLocalDays
      simp only [hsplit, h]
    simp [availableDates, List.range_succ_eq_map, h0]
  · exact (List.length_product _ _).trans (by simp [availableDates, timeSlots])
  · exact List.Nodup.product (availableDates_nodup z today hz) timeSlots_nodup

theorem slotCalendar_fifteen_days_four_slots_witness :
    (availableDates newYorkSpring2025 1741186800000).length = 15 ∧
      (slotCalendar newYorkSpring2025 1741186800000).Nodup :=
  have h := slotCalendar_fifteen_days_four_slots newYorkSpring2025 1741186800000
    newYorkSpring2025_keeps_day
  ⟨h.1, h.2.2.2.2.2.2.2⟩

/-- The calendar computed on 25 December 2024 and on 20 February 2024
(22:00 IST): the dates run over the year end and over the leap day. -/
theorem availableDates_month_and_year_ends :
    (availableDates (fixedZone 330) 1735144200000).map formatDateIN =
      ["25 December 2024", "26 December 2024", "27 December 2024", "28 December 2024",
       "29 December 2024", "30 December 2024", "31 December 2024", "1 January 2025",
       "2 January 2025", "3 January 2025", "4 January 2025", "5 January 2025",
       "6 January 2025", "7 January 2025", "8 January 2025"] ∧
    (availableDates (fixedZone 330) 1708446600000).map formatDateIN =
      ["20 February 2024", "21 February 2024", "22 February 2024", "23 February 2024",
       "24 February 2024", "25 February 2024", "26 February 2024", "27 February 2024",
       "28 February 2024", "29 February 2024", "1 March 2024", "2 March 2024",
       "3 March 2024", "4 March 2024", "5 March 2024"] := by
  decide

/-- The calendar computed in New York at 10:00 on 5 March 2025
(2025-03-05T15:00:00Z): the dates keep the wall-clock time 10:00, so the entry
for 9 March, after the clocks went forward, is 23 hours after the entry for
8 March. -/
theorem availableDates_across_dst_start :
    (availableDates newYorkSpring2025 1741186800000).take 6 =
      [1741186800000, 1741273200000, 1741359600000, 1741446000000, 1741528800000,
       1741615200000] := by
  decide

/-! ## Store or identity unavailable -/

/-- C23: when `db` or `userId` is missing, `handleBooking` and `handleSubmit`
each report the generic error "Cannot connect to booking system. Please
refresh." and perform no store write and no notification request, so nothing is
retried.  For `handleBooking` this holds for every state; for `handleSubmit` the
absence of effects holds for every state and the error text for every
submission the discovery form can pass on: its three inputs are required, so
name, email and message are not empty, and a preferred date is always
selected. -/
theorem missing_store_or_identity_rejected (userId : Option String) :
    (∀ (db : Option (Collection ApptData)) (w : World) (st : BookingState),
        db = none ∨ userId = none ∨ userId = some "" →
        (handleBooking db userId w st).state.error =
          some "Cannot connect to booking system. Please refresh." ∧
        (handleBooking db userId w st).effects = [] ∧
        (handleBooking db userId w st).db = db) ∧
      (∀ (db : Option (Collection DiscoveryDoc)) (w : SubmitWorld) (st : DiscoveryState),
        db = none ∨ userId = none ∨ userId = some "" →
        (handleSubmit db userId w st).effects = [] ∧
        (handleSubmit db userId w st).db = db ∧
        (handleSubmit db userId w st).state.success = false ∧
        (st.name ≠ "" → st.email ≠ "" → st.message ≠ "" → st.selectedDate ≠ none →
          (handleSubmit db userId w st).state.error =
            some "Cannot connect to booking system. Please refresh.")) := by
  constructor
  · intro db w st h
    unfold handleBooking
    rcases h with h | h | h
    · subst h
      simp
    · subst h
      cases db <;> simp
    · subst h
      cases db <;> simp
  · intro db w st h
    unfold handleSubmit
    by_cases hf : (st.name == "" || st.email == "" || st.message == "") = true
    · simp only [hf, if_true, true_and]
      intro hn he hmsg
      simp [hn, he, hmsg] at hf
    · cases hd : st.selectedDate with
      | none => simp [hf]
      | some date =>
        rcases h with h | h | h
        · subst h
          simp [hf]
        · subst h
          cases db <;> simp [hf]
        · subst h
          cases db <;> simp [hf]

theorem missing_store_or_identity_rejected_witness :
    (handleBooking none (some "u1") sampleWorld sampleState).state.error =
        some "Cannot connect to booking system. Please refresh." ∧
      (handleSubmit (some []) none submitWorld1 sampleDiscovery).state.error =
        some "Cannot connect to booking system. Please refresh." :=
  ⟨((missing_store_or_identity_rejected (some "u1")).1 none sampleWorld sampleState
      (Or.inl rfl)).1,
   ((missing_store_or_identity_rejected none).2 (some []) submitWorld1 sampleDiscovery
      (Or.inr (Or.inl rfl))).2.2.2 (by decide) (by decide) (by decide) (by decide)⟩

/-! ## No retries -/

/-- C24: one call of `handleBooking` performs at most one reservation write and
at most one notification request: its effects are none, the single write (a
rejected write is not repeated), or the write followed by the single request (a
failed notification is not repeated). -/
theorem handleBooking_no_retry (db : Option (Collection ApptData)) (userId : Option String)
    (w : World) (st : BookingState) :
    (handleBooking db userId w st).effects.countP Effect.isWrite ≤ 1 ∧
      (handleBooking db userId w st).effects.countP Effect.isSendEmail ≤ 1 ∧
      ((handleBooking db userId w st).effects = [] ∨
       (∃ id data, w.writeCommits = false ∧ (handleBooking db userId w st).effects =
          [Effect.write publicAppointmentsPath id data]) ∨
       (∃ id data body, w.writeCommits = true ∧ (handleBooking db userId w st).effects =
          [Effect.write publicAppointmentsPath id data,
           Effect.sendEmail "/api/send-email" "POST" body])) := by
  unfold handleBooking
  cases db with
  | none => simp
  | some store =>
    cases userId with
    | none => simp
    | some uid =>
      by_cases hu : uid = ""
      · simp [hu]
      · cases ht : st.selectedTime with
        | none => simp [hu]
        | some t =>
          cases hw : w.writeCommits <;>
            simp [hu, hw, awaitSetDoc, Effect.isWrite, Effect.isSendEmail, List.countP_cons]

/-! ## Stored day and displayed day -/

theorem utc_day_eq_kolkata_day_iff (t : Int) :
    dayOf (t + kolkataOffsetMin * msPerMinute) = dayOf t ↔
      t % msPerDay < msPerDay - kolkataOffsetMin * msPerMinute := by
  simp only [dayOf, msPerDay, msPerMinute, kolkataOffsetMin]
  omega

/-- C25 (code evaluated at the failing input): the page is opened at 02:00 IST
on 2 June 2025 and the 18:00 slot of the default date is booked.  The record is
stored under `2025-06-01T18:00` with date `2025-06-01` (the UTC day of the
instant), while the confirmation message and the email request show
`2 June 2025` (the Asia/Kolkata day): two different calendar days. -/
theorem handleBooking_stored_day_differs_from_shown_day :
    civilFromDays (dayOf nightState.selectedDate) = (2025, 6, 1) ∧
    civilFromDays (dayOf (nightState.selectedDate + kolkataOffsetMin * msPerMinute)) =
      (2025, 6, 2) ∧
    (handleBooking (some []) (some "u1") nightWorld nightState).db =
      some [("2025-06-01T18:00",
        { slotId := "2025-06-01T18:00", date := "2025-06-01", time := "18:00",
          patientName := "A", patientEmail := "a@x.com", bookedBy := "u1",
          bookedAt := 1748809800000, bookingTimestamp := 1748781000000 })] ∧
    (handleBooking (some []) (some "u1") nightWorld nightState).state.success =
      some ("Appointment confirmed for A on 2 June 2025 at 18:00 IST. " ++
        "Please check your email for payment details and the meeting link.") ∧
    Effect.sendEmail "/api/send-email" "POST"
        { type := "appointment", name := "A", email := "a@x.com", date := "2 June 2025",
          time := "18:00" } ∈
      (handleBooking (some []) (some "u1") nightWorld nightState).effects ∧
    isSlotBooked ["2025-06-01T18:00"] nightState.selectedDate "18:00" = true := by
  decide

/-! ## The UPI reference of a discovery request -/

/-- C26 (code evaluated at the failing input): the request that `handleSubmit`
sends for the sample discovery submission has no `upiId`, and the send-email
handler writes the text `undefined` as UPI transaction reference into the
patient email and into the clinic summary. -/
theorem discovery_request_has_no_upiId :
    (handleSubmit (some []) (some "u1") submitWorld1 sampleDiscovery).effects.getLast? =
      some (DiscoveryEffect.sendEmail "/api/send-email" "POST" sampleDiscoveryRequest) ∧
    (requestBodyOf sampleDiscoveryRequest).upiId = none ∧
    (∃ patient clinic,
      (handler { firstSendResolves := true, secondSendResolves := true }
        { method := "POST", body := requestBodyOf sampleDiscoveryRequest }).sends =
          [patient, clinic] ∧
      containsText patient.html
        "We have received your UPI Transaction ID (<strong>undefined</strong>) for verification" ∧
      containsText clinic.html "<li><strong>UPI ID:</strong> undefined</li>") := by
  refine ⟨by decide, rfl, _, _, rfl, ?_, ?_⟩
  · unfold containsText
    set_option maxRecDepth 100000 in decide
  · unfold containsText
    set_option maxRecDepth 100000 in decide

/-! ## The send-email route: rejected requests and the response message -/

/-- C27: for every request that the send-email handler answers with 405 or with
400, no email send is attempted. -/
theorem handler_rejected_sends_nothing (w : MailWorld) (req : ApiRequest)
    (h : (handler w req).response.status = 405 ∨ (handler w req).response.status = 400) :
    (handler w req).sends = [] := by
  unfold handler at h ⊢
  by_cases hm : req.method = "POST"
  · cases hsel : selectTemplates req.body with
    | none => simp [hm]
    | some t =>
      cases h1 : w.firstSendResolves <;> cases h2 : w.secondSendResolves <;>
        simp [hm, hsel, h1, h2, awaitSend] at h
  · simp [hm]

theorem handler_rejected_sends_nothing_witness :
    (handler { firstSendResolves := true, secondSendResolves := true }
        { sampleRequest with method := "GET" }).sends = [] :=
  handler_rejected_sends_nothing { firstSendResolves := true, secondSendResolves := true }
    { sampleRequest with method := "GET" } (Or.inl rfl)

/-- The response message follows the two promises only: for a valid POST request
the status is 200, the message is "Booking successful and emails sent." exactly
when both promises resolve, and it is the failure message when one rejects.
What the promises resolve with plays no part. -/
theorem handler_message_iff_both_sent (w : MailWorld) (req : ApiRequest)
    (hm : req.method = "POST")
    (ht : req.body.type = some "appointment" ∨ req.body.type = some "discovery") :
    (handler w req).response.status = 200 ∧
      ((handler w req).response.body = .message "Booking successful and emails sent." ↔
        w.firstSendResolves = true ∧ w.secondSendResolves = true) ∧
      (w.firstSendResolves = false ∨ w.secondSendResolves = false →
        (handler w req).response.body =
          .message "Booking successful, but email notification failed.") := by
  obtain ⟨t, hsel⟩ := selectTemplates_isSome req.body ht
  unfold handler
  cases h1 : w.firstSendResolves <;> cases h2 : w.secondSendResolves <;>
    simp [hm, hsel, awaitSend]

theorem handler_message_iff_both_sent_witness :
    (handler { firstSendResolves := true, secondSendResolves := false }
        sampleRequest).response.body =
      .message "Booking successful, but email notification failed." :=
  (handler_message_iff_both_sent { firstSendResolves := true, secondSendResolves := false }
    sampleRequest rfl (Or.inl rfl)).2.2 (Or.inr rfl)

/-- C28 (code evaluated at the failing input): a valid appointment request on
which the mail service refuses both messages, so that both promises resolve
with an error.  Neither send succeeded, yet the handler answers 200 with
"Booking successful and emails sent.". -/
theorem handler_reports_sent_when_both_refused :
    (handler { firstSendResolves := true, secondSendResolves := true,
               firstSendRefused := true, secondSendRefused := true } sampleRequest).response =
        { status := 200, body := .message "Booking successful and emails sent." } ∧
      (handler { firstSendResolves := true, secondSendResolves := true,
                 firstSendRefused := true, secondSendRefused := true } sampleRequest).response.body ≠
        .message "Booking successful, but email notification failed." ∧
      (handler { firstSendResolves := true, secondSendResolves := true,
                 firstSendRefused := true, secondSendRefused := true } sampleRequest).console = [] := by
  decide

/-! ## Preferred date of a discovery request -/

/-- C20 (code evaluated at the failing input): the discovery page is opened at
02:00 IST on 2 June 2025 and the form is submitted with the default preferred
date.  The appended record has status `pending_confirmation` and the submitted
name, email and message, its display string says `2 June 2025`, but its ISO
calendar day is `2025-06-01`, the UTC day of the instant: the ISO field does
not carry the preferred date. -/
theorem handleSubmit_iso_day_differs_from_preferred_day :
    (handleSubmit (some []) (some "u1") nightSubmitWorld nightDiscovery).state.success = true ∧
    (handleSubmit (some []) (some "u1") nightSubmitWorld nightDiscovery).db =
      some [("id1",
        { name := "A", email := "a@x.com", message := "hello",
          preferredDate := "2 June 2025", preferredDateISO := "2025-06-01",
          bookedBy := "u1", bookedAt := 1748809800000, status := "pending_confirmation" })] ∧
    civilFromDays (dayOf (1748809800000 + 330 * msPerMinute)) = (2025, 6, 2) ∧
    civilFromDays (dayOf 1748809800000) = (2025, 6, 1) := by
  decide

end Clinic
